import Mathlib

/-!
# CourseForge: the coursework assignment and grading workflow

A shallow embedding of `internal/models`, `internal/drivers` (the two
repositories used by the workflow), the report and request types of
`internal/interfaces` and `internal/managers` (`StudentCourseworkManagerImpl`
and the methods of `CourseworkManagerImpl` that the claims are about),
followed by theorems about them.

Modelling conventions.

* The database is a set of tables, each a list of rows in primary-key order
  (the order in which `First` and `Find` scan them).  The models carry a
  `gorm.DeletedAt` column, so every query and update built from the model is
  scoped to rows whose `DeletedAt` is null ("live" rows) and `Delete` is a soft
  delete.
* Every repository method that sends a statement to the database takes the
  outcome of that statement as an argument: `none` when the statement ran,
  `some e` when it came back with `result.Error = e`.  A statement that came back
  with an error leaves the tables as they were.
* A manager method takes the outcomes of its statements as a function from the
  position of the statement within the call, and one clock reading `now` that
  stands for `time.Now()` and for the clock the ORM reads for `autoUpdateTime`.
* `uint` is `Nat`, `int` is `Int`, `time.Time` is `Nat`; a nil pointer is `none`.
-/

namespace CourseForge

/-- Instants of the clock (the values of `time.Time`). -/
abbrev Time := Nat

/-! ## internal/models -/

namespace models

/-- The string type `CourseworkStatus` of `StudentCourseworks.go`. -/
abbrev CourseworkStatus := String

def StatusAssigned : CourseworkStatus := "assigned"

def StatusInProgress : CourseworkStatus := "in_progress"

def StatusSubmitted : CourseworkStatus := "submitted"

def StatusReviewed : CourseworkStatus := "reviewed"

def StatusCompleted : CourseworkStatus := "completed"

def StatusFailed : CourseworkStatus := "failed"

/-- The string type `DifficultyLevel` of `Courseworks.go`. -/
abbrev DifficultyLevel := String

def Easy : DifficultyLevel := "easy"

def Medium : DifficultyLevel := "medium"

def Hard : DifficultyLevel := "hard"

/-- The columns of `models.User` (the associations `TeacherSubjects` and
`StudentCoursework` are left out).  The defaults are the zero values of Go. -/
structure User where
  ID : Nat := 0
  CreatedAt : Time := 0
  UpdatedAt : Time := 0
  DeletedAt : Option Time := none
  Email : String := ""
  PasswordHash : String := ""
  FirstName : String := ""
  LastName : String := ""
  Role : String := ""
  IsActive : Bool := false
deriving DecidableEq, Repr

/-- `GetFullName`: the first name, a blank, the last name. -/
def User.GetFullName (u : User) : String :=
  u.FirstName ++ " " ++ u.LastName

/-- The columns of `models.Coursework` (the preloaded associations `Subject`
and `Teacher` are not read by the workflow and are left out). -/
structure Coursework where
  ID : Nat
  CreatedAt : Time
  UpdatedAt : Time
  DeletedAt : Option Time
  Title : String
  Description : String
  Requirements : String
  SubjectID : Nat
  TeacherID : Nat
  MaxStudents : Int
  Difficulty : DifficultyLevel
  IsAvailable : Bool
deriving DecidableEq, Repr

/-- The columns of `models.StudentCoursework`, and the association `Student`,
which holds the zero value unless a query preloads it (the association
`Coursework` is not read by the workflow and is left out). -/
structure StudentCoursework where
  ID : Nat
  CreatedAt : Time
  UpdatedAt : Time
  DeletedAt : Option Time
  StudentID : Nat
  CourseworkID : Nat
  Status : CourseworkStatus
  SubmittedAt : Option Time
  CompletedAt : Option Time
  Grade : Option Int
  Feedback : String
  Student : User := {}
deriving DecidableEq, Repr

end models

open models

/-! ## Errors -/

/-- The errors built by the repositories and the managers, one constructor per
`errors.New` / `fmt.Errorf` site reached by the workflow. -/
inductive Err where
  /-- Manager: "student already has an assigned coursework". -/
  | alreadyAssigned
  /-- Manager: "no slots available for this coursework". -/
  | noSlots
  /-- Assignment repository: "invalid ID". -/
  | invalidID
  /-- Assignment repository: "invalid student ID". -/
  | invalidStudentID
  /-- Both repositories: "invalid coursework ID". -/
  | invalidCourseworkID
  /-- Assignment repository: "student ID and coursework ID are required". -/
  | idsRequired
  /-- Assignment repository: "no coursework found for student %d". -/
  | noCourseworkForStudent (studentID : Nat)
  /-- Assignment repository: "student coursework with ID %d not found". -/
  | assignmentNotFound (id : Nat)
  /-- Coursework repository: "coursework with ID %d not found". -/
  | courseworkNotFound (id : Nat)
  /-- Assignment repository: "invalid status: %s". -/
  | invalidStatus (status : String)
  /-- Assignment repository: "invalid grade: %d". -/
  | invalidGrade (grade : Int)
  /-- A wrapped persistence failure, `fmt.Errorf("<context>: %w", result.Error)`. -/
  | persistence (context : String) (cause : String)
  /-- Coursework repository: "title and description are required". -/
  | titleDescriptionRequired
  /-- Coursework repository: "subject ID and teacher ID are required". -/
  | subjectTeacherIDRequired
  /-- Coursework repository: "max_students must be at least 1". -/
  | maxStudentsBelowOne
  /-- Coursework repository: "invalid difficulty level: %s". -/
  | invalidDifficulty (level : String)
  /-- Coursework repository: "coursework ID cannot be zero". -/
  | courseworkIDZero
  /-- Coursework manager: "subject and teacher IDs are required". -/
  | subjectTeacherRequired
  /-- Coursework manager: "student already assigned". -/
  | studentAlreadyAssigned
  /-- Coursework manager: "no available slots". -/
  | noAvailableSlots
deriving DecidableEq, Repr

deriving instance DecidableEq for Except

/-! ## The database -/

/-- The two tables the workflow reads and writes, and the table of users from
which `Preload("Student")` fills the association. -/
structure DB where
  studentCourseworks : List StudentCoursework
  courseworks : List Coursework
  users : List User := []
deriving DecidableEq, Repr

/-- The soft-delete scope on `student_courseworks`: `deleted_at IS NULL`. -/
def StudentCourseworkLive (r : StudentCoursework) : Bool :=
  r.DeletedAt.isNone

/-- The soft-delete scope on `courseworks`: `deleted_at IS NULL`. -/
def CourseworkLive (c : Coursework) : Bool :=
  c.DeletedAt.isNone

/-- The outcomes of a run of statements in which none fails. -/
def noFault : Nat → Option String :=
  fun _ => none

/-- The primary key handed out by `AUTOINCREMENT`: one more than the largest
key the table has ever held (rows are only ever soft-deleted). -/
def nextStudentCourseworkID (db : DB) : Nat :=
  (db.studentCourseworks.map (fun r => r.ID)).foldl max 0 + 1

/-- The statement `UPDATE student_courseworks SET ... WHERE id = ? AND
deleted_at IS NULL`: the new table, and `RowsAffected`. -/
def updateStudentCourseworkByID (db : DB) (id : Nat)
    (assign : StudentCoursework → StudentCoursework) : DB × Nat :=
  let rows := db.studentCourseworks.map
    (fun r => if StudentCourseworkLive r && r.ID == id then assign r else r)
  let affected := db.studentCourseworks.countP (fun r => StudentCourseworkLive r && r.ID == id)
  ({ db with studentCourseworks := rows }, affected)

/-! ## internal/drivers: coursework_repository.go -/

namespace courseworkRepository

/-- `GetByID`: the live coursework with the given primary key. -/
def GetByID (db : DB) (fault : Option String) (id : Nat) : Except Err Coursework :=
  if id = 0 then .error .invalidCourseworkID
  else
    match fault with
    | some e => .error (.persistence "failed to get coursework by ID" e)
    | none =>
      match db.courseworks.find? (fun c => CourseworkLive c && c.ID == id) with
      | none => .error (.courseworkNotFound id)
      | some cw => .ok cw

/-- `GetWithStudentCount`: the coursework and the number of live assignment
rows that reference it. -/
def GetWithStudentCount (db : DB) (faultGet faultCount : Option String)
    (courseworkID : Nat) : Except Err (Coursework × Int) :=
  if courseworkID = 0 then .error .invalidCourseworkID
  else
    match GetByID db faultGet courseworkID with
    | .error err => .error err
    | .ok cw =>
      match faultCount with
      | some e => .error (.persistence "failed to count students for coursework" e)
      | none =>
        let count : Nat := db.studentCourseworks.countP
          (fun r => StudentCourseworkLive r && r.CourseworkID == courseworkID)
        .ok (cw, (count : Int))

/-- The primary key handed out by `AUTOINCREMENT` on `courseworks`. -/
def nextCourseworkID (db : DB) : Nat :=
  (db.courseworks.map (fun c => c.ID)).foldl max 0 + 1

/-- `Create`: validates and inserts the coursework; the record comes back with
its primary key and, where they were zero, its time stamps filled in.  (The
caller passes a non-nil record whose `ID` is zero.) -/
def Create (db : DB) (fault : Option String) (now : Time) (cw : Coursework) :
    Except Err Coursework × DB :=
  if cw.Title = "" ∨ cw.Description = "" then (.error .titleDescriptionRequired, db)
  else if cw.SubjectID = 0 ∨ cw.TeacherID = 0 then (.error .subjectTeacherIDRequired, db)
  else if cw.MaxStudents < 1 then (.error .maxStudentsBelowOne, db)
  else if cw.Difficulty ≠ Easy ∧ cw.Difficulty ≠ Medium ∧ cw.Difficulty ≠ Hard then
    (.error (.invalidDifficulty cw.Difficulty), db)
  else
    match fault with
    | some e => (.error (.persistence "failed to create coursework" e), db)
    | none =>
      let row := { cw with
        ID := nextCourseworkID db,
        CreatedAt := if cw.CreatedAt = 0 then now else cw.CreatedAt,
        UpdatedAt := if cw.UpdatedAt = 0 then now else cw.UpdatedAt }
      (.ok row, { db with courseworks := db.courseworks ++ [row] })

/-- The method `List` of the repository: one page of the live courseworks. -/
def ListCourseworks (db : DB) (fault : Option String) (limit offset : Int) :
    Except Err (List Coursework) :=
  let limit := if limit ≤ 0 then 10 else limit
  let offset := if offset < 0 then 0 else offset
  match fault with
  | some e => .error (.persistence "failed to list courseworks" e)
  | none =>
    .ok (((db.courseworks.filter (fun c => CourseworkLive c)).drop offset.toNat).take
      limit.toNat)

end courseworkRepository

/-! ## internal/drivers: student_coursework_repository.go -/

namespace studentCourseworkRepository

/-- `Create`: inserts the assignment; the record comes back with its primary
key filled in.  (The callers pass a non-nil record whose `ID` is zero.) -/
def Create (db : DB) (fault : Option String) (assignment : StudentCoursework) :
    Except Err StudentCoursework × DB :=
  if assignment.StudentID = 0 ∨ assignment.CourseworkID = 0 then
    (.error .idsRequired, db)
  else
    match fault with
    | some e => (.error (.persistence "failed to create student coursework" e), db)
    | none =>
      let row := { assignment with ID := nextStudentCourseworkID db }
      (.ok row, { db with studentCourseworks := db.studentCourseworks ++ [row] })

/-- `GetByID`: the live assignment with the given primary key. -/
def GetByID (db : DB) (fault : Option String) (id : Nat) : Except Err StudentCoursework :=
  if id = 0 then .error .invalidID
  else
    match fault with
    | some e => .error (.persistence "failed to get by ID" e)
    | none =>
      match db.studentCourseworks.find? (fun r => StudentCourseworkLive r && r.ID == id) with
      | none => .error (.assignmentNotFound id)
      | some sc => .ok sc

/-- `GetByStudent`: the first live assignment of the student. -/
def GetByStudent (db : DB) (fault : Option String) (studentID : Nat) :
    Except Err StudentCoursework :=
  if studentID = 0 then .error .invalidStudentID
  else
    match fault with
    | some e => .error (.persistence "failed to get by student" e)
    | none =>
      match db.studentCourseworks.find?
          (fun r => StudentCourseworkLive r && r.StudentID == studentID) with
      | none => .error (.noCourseworkForStudent studentID)
      | some sc => .ok sc

/-- The user that `Preload("Student")` attaches for a student id: the live row
of `users` with that primary key, the zero value when there is none. -/
def preloadStudent (db : DB) (studentID : Nat) : User :=
  (db.users.find? (fun u => u.DeletedAt.isNone && u.ID == studentID)).getD {}

/-- `GetByCoursework`: the live assignments of the coursework, each with its
student preloaded. -/
def GetByCoursework (db : DB) (fault : Option String) (courseworkID : Nat) :
    Except Err (List StudentCoursework) :=
  if courseworkID = 0 then .error .invalidCourseworkID
  else
    match fault with
    | some e => .error (.persistence "failed to get by coursework" e)
    | none =>
      .ok ((db.studentCourseworks.filter
          (fun r => StudentCourseworkLive r && r.CourseworkID == courseworkID)).map
        (fun r => { r with Student := preloadStudent db r.StudentID }))

/-- `Delete`: soft-deletes the live assignment with the given primary key. -/
def Delete (db : DB) (fault : Option String) (now : Time) (id : Nat) : Except Err Unit × DB :=
  if id = 0 then (.error .invalidID, db)
  else
    match fault with
    | some e => (.error (.persistence "failed to delete student coursework" e), db)
    | none =>
      let result := updateStudentCourseworkByID db id (fun r => { r with DeletedAt := some now })
      if result.2 = 0 then (.error (.assignmentNotFound id), result.1)
      else (.ok (), result.1)

/-- `UpdateStatus`: validates the status and writes the `status` column. -/
def UpdateStatus (db : DB) (fault : Option String) (now : Time) (id : Nat)
    (status : CourseworkStatus) : Except Err Unit × DB :=
  if id = 0 then (.error .invalidID, db)
  else if ¬ (status = StatusAssigned ∨ status = StatusInProgress ∨ status = StatusSubmitted ∨
      status = StatusReviewed ∨ status = StatusCompleted ∨ status = StatusFailed) then
    (.error (.invalidStatus status), db)
  else
    match fault with
    | some e => (.error (.persistence "failed to update status" e), db)
    | none =>
      let result := updateStudentCourseworkByID db id
        (fun r => { r with Status := status, UpdatedAt := now })
      if result.2 = 0 then (.error (.assignmentNotFound id), result.1)
      else (.ok (), result.1)

/-- `SetGrade`: validates the grade and writes `grade` and `feedback`. -/
def SetGrade (db : DB) (fault : Option String) (now : Time) (id : Nat) (grade : Int)
    (feedback : String) : Except Err Unit × DB :=
  if id = 0 then (.error .invalidID, db)
  else if grade < 2 ∨ grade > 5 then (.error (.invalidGrade grade), db)
  else
    match fault with
    | some e => (.error (.persistence "failed to set grade" e), db)
    | none =>
      let result := updateStudentCourseworkByID db id
        (fun r => { r with Grade := some grade, Feedback := feedback, UpdatedAt := now })
      if result.2 = 0 then (.error (.assignmentNotFound id), result.1)
      else (.ok (), result.1)

/-- `SetSubmitted`: writes `status = submitted` and `submitted_at`. -/
def SetSubmitted (db : DB) (fault : Option String) (now : Time) (id : Nat)
    (submittedAt : Time) : Except Err Unit × DB :=
  if id = 0 then (.error .invalidID, db)
  else
    match fault with
    | some e => (.error (.persistence "failed to set submitted" e), db)
    | none =>
      let result := updateStudentCourseworkByID db id
        (fun r => { r with Status := StatusSubmitted, SubmittedAt := some submittedAt,
                           UpdatedAt := now })
      if result.2 = 0 then (.error (.assignmentNotFound id), result.1)
      else (.ok (), result.1)

/-- `SetCompleted`: writes `status = completed` and `completed_at`. -/
def SetCompleted (db : DB) (fault : Option String) (now : Time) (id : Nat)
    (completedAt : Time) : Except Err Unit × DB :=
  if id = 0 then (.error .invalidID, db)
  else
    match fault with
    | some e => (.error (.persistence "failed to set completed" e), db)
    | none =>
      let result := updateStudentCourseworkByID db id
        (fun r => { r with Status := StatusCompleted, CompletedAt := some completedAt,
                           UpdatedAt := now })
      if result.2 = 0 then (.error (.assignmentNotFound id), result.1)
      else (.ok (), result.1)

end studentCourseworkRepository

/-! ## internal/interfaces: DTO.go -/

namespace interfaces

/-- `StudentCourseworkSummary`. -/
structure StudentCourseworkSummary where
  StudentID : Nat
  StudentName : String
  Status : CourseworkStatus
  AssignedAt : Time
  SubmittedAt : Option Time
  CompletedAt : Option Time
  Grade : Option Int
deriving DecidableEq, Repr

/-- `CourseworkProgressReport`. -/
structure CourseworkProgressReport where
  CourseworkID : Nat
  CourseworkTitle : String
  TotalStudents : Int
  AssignedStudents : Int
  InProgressCount : Int
  SubmittedCount : Int
  CompletedCount : Int
  FailedCount : Int
  Students : List StudentCourseworkSummary
deriving DecidableEq, Repr

end interfaces

open interfaces

/-! ## internal/managers: student_cswork_manager.go -/

namespace StudentCourseworkManagerImpl

open studentCourseworkRepository courseworkRepository

/-- `AssignStudentToCoursework`.  Statement 0 is the by-student lookup, 1 the
coursework lookup, 2 the count, 3 the insert. -/
def AssignStudentToCoursework (db : DB) (now : Time) (faults : Nat → Option String)
    (studentID courseworkID : Nat) : Except Err StudentCoursework × DB :=
  match studentCourseworkRepository.GetByStudent db (faults 0) studentID with
  | .ok _ => (.error .alreadyAssigned, db)
  | .error _ =>
    match GetWithStudentCount db (faults 1) (faults 2) courseworkID with
    | .error err => (.error err, db)
    | .ok (cw, count) =>
      if count ≥ cw.MaxStudents then (.error .noSlots, db)
      else
        studentCourseworkRepository.Create db (faults 3)
          { ID := 0, CreatedAt := now, UpdatedAt := now, DeletedAt := none,
            StudentID := studentID, CourseworkID := courseworkID,
            Status := StatusAssigned, SubmittedAt := none, CompletedAt := none,
            Grade := none, Feedback := "" }

/-- `UpdateCourseworkStatus`. -/
def UpdateCourseworkStatus (db : DB) (now : Time) (faults : Nat → Option String)
    (assignmentID : Nat) (status : CourseworkStatus) : Except Err Unit × DB :=
  UpdateStatus db (faults 0) now assignmentID status

/-- `SubmitCoursework`. -/
def SubmitCoursework (db : DB) (now : Time) (faults : Nat → Option String)
    (assignmentID : Nat) : Except Err Unit × DB :=
  match UpdateStatus db (faults 0) now assignmentID StatusSubmitted with
  | (.error err, db1) => (.error err, db1)
  | (.ok _, db1) => SetSubmitted db1 (faults 1) now assignmentID now

/-- `GradeCoursework`. -/
def GradeCoursework (db : DB) (now : Time) (faults : Nat → Option String)
    (assignmentID : Nat) (grade : Int) (feedback : String) : Except Err Unit × DB :=
  match UpdateStatus db (faults 0) now assignmentID StatusReviewed with
  | (.error err, db1) => (.error err, db1)
  | (.ok _, db1) => SetGrade db1 (faults 1) now assignmentID grade feedback

/-- `CompleteCoursework`. -/
def CompleteCoursework (db : DB) (now : Time) (faults : Nat → Option String)
    (assignmentID : Nat) : Except Err Unit × DB :=
  match UpdateStatus db (faults 0) now assignmentID StatusCompleted with
  | (.error err, db1) => (.error err, db1)
  | (.ok _, db1) => SetCompleted db1 (faults 1) now assignmentID now

/-- The body of the `for _, r := range records` loop of
`GetCourseworkProgress`: the `switch` on the status, then the `append`. -/
def progressLoopBody (report : CourseworkProgressReport) (r : StudentCoursework) :
    CourseworkProgressReport :=
  let counted : CourseworkProgressReport :=
    if r.Status = StatusAssigned then
      { report with AssignedStudents := report.AssignedStudents + 1 }
    else if r.Status = StatusInProgress then
      { report with InProgressCount := report.InProgressCount + 1 }
    else if r.Status = StatusSubmitted then
      { report with SubmittedCount := report.SubmittedCount + 1 }
    else if r.Status = StatusCompleted then
      { report with CompletedCount := report.CompletedCount + 1 }
    else if r.Status = StatusFailed then
      { report with FailedCount := report.FailedCount + 1 }
    else report
  { counted with Students := counted.Students ++
      [{ StudentID := r.StudentID, StudentName := r.Student.GetFullName, Status := r.Status,
         AssignedAt := r.CreatedAt, SubmittedAt := r.SubmittedAt,
         CompletedAt := r.CompletedAt, Grade := r.Grade }] }

/-- `GetCourseworkProgress`.  Statement 0 is the by-coursework query; the
database comes back as it was given. -/
def GetCourseworkProgress (db : DB) (faults : Nat → Option String) (courseworkID : Nat) :
    Except Err CourseworkProgressReport × DB :=
  match GetByCoursework db (faults 0) courseworkID with
  | .error err => (.error err, db)
  | .ok records =>
    let report : CourseworkProgressReport :=
      { CourseworkID := courseworkID, CourseworkTitle := "",
        TotalStudents := (records.length : Int), AssignedStudents := 0,
        InProgressCount := 0, SubmittedCount := 0, CompletedCount := 0, FailedCount := 0,
        Students := [] }
    (.ok (records.foldl progressLoopBody report), db)

/-- `UnassignStudentFromCoursework`. -/
def UnassignStudentFromCoursework (db : DB) (now : Time) (faults : Nat → Option String)
    (studentID : Nat) : Except Err Unit × DB :=
  match studentCourseworkRepository.GetByStudent db (faults 0) studentID with
  | .error err => (.error err, db)
  | .ok assignment => Delete db (faults 1) now assignment.ID

end StudentCourseworkManagerImpl

/-! ## internal/managers: coursework_manager.go -/

namespace CourseworkManagerImpl

/-- `GetAvailableCourseworks`.  Statement 0 is the listing, called with limit 0
and offset 0; the student id is not used. -/
def GetAvailableCourseworks (db : DB) (faults : Nat → Option String) (_studentID : Nat) :
    Except Err (List Coursework) × DB :=
  match courseworkRepository.ListCourseworks db (faults 0) 0 0 with
  | .error err => (.error err, db)
  | .ok list => (.ok (list.filter (fun cw => cw.IsAvailable)), db)

/-- `CanAssignStudentToCoursework`.  Statement 0 is the by-student lookup, 1
the coursework lookup, 2 the count. -/
def CanAssignStudentToCoursework (db : DB) (faults : Nat → Option String)
    (studentID cwID : Nat) : Except Err Unit × DB :=
  match studentCourseworkRepository.GetByStudent db (faults 0) studentID with
  | .ok _ => (.error .studentAlreadyAssigned, db)
  | .error _ =>
    match courseworkRepository.GetWithStudentCount db (faults 1) (faults 2) cwID with
    | .error err => (.error err, db)
    | .ok (cw, count) =>
      if count ≥ cw.MaxStudents then (.error .noAvailableSlots, db)
      else (.ok (), db)

end CourseworkManagerImpl

/-! ## Sequential executions and the workflow invariants -/

/-- One workflow operation with its arguments. -/
inductive Op where
  | assign (studentID courseworkID : Nat)
  | unassign (studentID : Nat)
  | updateStatus (assignmentID : Nat) (status : CourseworkStatus)
  | submit (assignmentID : Nat)
  | grade (assignmentID : Nat) (grade : Int) (feedback : String)
  | complete (assignmentID : Nat)

/-- One call of the manager: the operation, the clock reading during the call
and the outcomes of the statements it sends. -/
structure Call where
  now : Time
  faults : Nat → Option String
  op : Op

open StudentCourseworkManagerImpl in
/-- The database after one call (whether the call succeeds or fails). -/
def step (db : DB) (c : Call) : DB :=
  match c.op with
  | .assign studentID courseworkID =>
    (AssignStudentToCoursework db c.now c.faults studentID courseworkID).2
  | .unassign studentID => (UnassignStudentFromCoursework db c.now c.faults studentID).2
  | .updateStatus id status => (UpdateCourseworkStatus db c.now c.faults id status).2
  | .submit id => (SubmitCoursework db c.now c.faults id).2
  | .grade id grade feedback => (GradeCoursework db c.now c.faults id grade feedback).2
  | .complete id => (CompleteCoursework db c.now c.faults id).2

/-- The database after a sequence of calls executed one after the other. -/
def run (db : DB) (calls : List Call) : DB :=
  calls.foldl step db

/-- The number of live assignment rows that reference the coursework. -/
def enrollmentCount (db : DB) (courseworkID : Nat) : Nat :=
  db.studentCourseworks.countP
    (fun r => StudentCourseworkLive r && r.CourseworkID == courseworkID)

/-- The number of live assignment rows of the student. -/
def assignmentCount (db : DB) (studentID : Nat) : Nat :=
  db.studentCourseworks.countP
    (fun r => StudentCourseworkLive r && r.StudentID == studentID)

/-- Capacity bound: no coursework has more live rows than `MaxStudents`. -/
def CapacityBound (db : DB) : Prop :=
  ∀ c ∈ db.courseworks, (enrollmentCount db c.ID : Int) ≤ c.MaxStudents

/-- Single assignment: no student has more than one live row. -/
def SingleAssignment (db : DB) : Prop :=
  ∀ studentID : Nat, assignmentCount db studentID ≤ 1

/-- The primary key of `courseworks` is unique. -/
def CourseworkKeysUnique (db : DB) : Prop :=
  (db.courseworks.map (fun c => c.ID)).Nodup

instance (db : DB) : Decidable (CapacityBound db) := by
  unfold CapacityBound; infer_instance

instance (db : DB) : Decidable (CourseworkKeysUnique db) := by
  unfold CourseworkKeysUnique; infer_instance


/-- The student has a live assignment row. -/
def HasLiveAssignment (db : DB) (studentID : Nat) : Prop :=
  ∃ r ∈ db.studentCourseworks, StudentCourseworkLive r = true ∧ r.StudentID = studentID

instance (db : DB) (studentID : Nat) : Decidable (HasLiveAssignment db studentID) := by
  unfold HasLiveAssignment; infer_instance

/-- No live coursework row is stored under the id. -/
def CourseworkMissing (db : DB) (courseworkID : Nat) : Prop :=
  ∀ c ∈ db.courseworks, CourseworkLive c = true → c.ID ≠ courseworkID

instance (db : DB) (courseworkID : Nat) : Decidable (CourseworkMissing db courseworkID) := by
  unfold CourseworkMissing; infer_instance

/-- The second database has the courseworks of the first, and its assignment
rows are those of the first, each possibly rewritten in place with its keys kept
and without a deleted row becoming live again. -/
def Rewrites (db db1 : DB) : Prop :=
  db1.courseworks = db.courseworks ∧
  ∃ g : StudentCoursework → StudentCoursework,
    db1.studentCourseworks = db.studentCourseworks.map g ∧
    ∀ r, (g r).ID = r.ID ∧ (g r).StudentID = r.StudentID ∧
      (g r).CourseworkID = r.CourseworkID ∧
      (StudentCourseworkLive (g r) = true → StudentCourseworkLive r = true)

/-- No live assignment row is stored under the id. -/
def AssignmentMissing (db : DB) (assignmentID : Nat) : Prop :=
  ∀ r ∈ db.studentCourseworks, StudentCourseworkLive r = true → r.ID ≠ assignmentID

instance (db : DB) (assignmentID : Nat) : Decidable (AssignmentMissing db assignmentID) := by
  unfold AssignmentMissing; infer_instance

/-- Membership in the enumeration `CourseworkStatus`: the six constants of
`StudentCourseworks.go`, the cases of the `switch` in `UpdateStatus`. -/
def IsCourseworkStatus (status : CourseworkStatus) : Prop :=
  status = StatusAssigned ∨ status = StatusInProgress ∨ status = StatusSubmitted ∨
    status = StatusReviewed ∨ status = StatusCompleted ∨ status = StatusFailed

instance (status : CourseworkStatus) : Decidable (IsCourseworkStatus status) := by
  unfold IsCourseworkStatus; infer_instance

/-- The primary key of `student_courseworks` is non-zero and unique. -/
def AssignmentKeysValid (db : DB) : Prop :=
  (∀ r ∈ db.studentCourseworks, r.ID ≠ 0) ∧
    (db.studentCourseworks.map (fun r => r.ID)).Nodup

instance (db : DB) : Decidable (AssignmentKeysValid db) := by
  unfold AssignmentKeysValid; infer_instance

/-- The grade of the row is unset or lies in the range 2 to 5. -/
def GradeInRange (r : StudentCoursework) : Prop :=
  match r.Grade with
  | none => True
  | some g => 2 ≤ g ∧ g ≤ 5

instance (r : StudentCoursework) : Decidable (GradeInRange r) := by
  unfold GradeInRange; split <;> infer_instance

/-- Grade range: every assignment row has its grade unset or in the range 2 to 5. -/
def GradesInRange (db : DB) : Prop :=
  ∀ r ∈ db.studentCourseworks, GradeInRange r

instance (db : DB) : Decidable (GradesInRange db) := by
  unfold GradesInRange; infer_instance

/-- The (student, coursework) pairs of the live assignment rows, in table order. -/
def livePairs (db : DB) : List (Nat × Nat) :=
  (db.studentCourseworks.filter (fun r => StudentCourseworkLive r)).map
    (fun r => (r.StudentID, r.CourseworkID))

/-- The assignment rows of the second database are those of the first, each
either with the status it had or with the target status. -/
def StatusMoves (target : CourseworkStatus) (db db1 : DB) : Prop :=
  ∃ g : StudentCoursework → StudentCoursework,
    db1.studentCourseworks = db.studentCourseworks.map g ∧
    ∀ r, (g r).Status = r.Status ∨ (g r).Status = target

/-! ## Sample data -/

/-- A coursework with a single slot. -/
def sampleCoursework : Coursework :=
  { ID := 1, CreatedAt := 1, UpdatedAt := 1, DeletedAt := none, Title := "Compilers",
    Description := "Write a small compiler", Requirements := "", SubjectID := 1,
    TeacherID := 2, MaxStudents := 1, Difficulty := Medium, IsAvailable := true }

/-- A coursework with two slots. -/
def sampleCourseworkTwo : Coursework :=
  { ID := 2, CreatedAt := 1, UpdatedAt := 1, DeletedAt := none, Title := "Databases",
    Description := "Write a small storage engine", Requirements := "", SubjectID := 1,
    TeacherID := 2, MaxStudents := 2, Difficulty := Hard, IsAvailable := true }

/-- The assignment of student 7 to the single-slot coursework. -/
def sampleAssignment : StudentCoursework :=
  { ID := 1, CreatedAt := 5, UpdatedAt := 5, DeletedAt := none, StudentID := 7,
    CourseworkID := 1, Status := StatusAssigned, SubmittedAt := none, CompletedAt := none,
    Grade := none, Feedback := "" }

/-- Two courseworks and no assignment. -/
def emptyDB : DB :=
  { studentCourseworks := [], courseworks := [sampleCoursework, sampleCourseworkTwo] }

/-- Two courseworks, student 7 enrolled in the first. -/
def enrolledDB : DB :=
  { studentCourseworks := [sampleAssignment],
    courseworks := [sampleCoursework, sampleCourseworkTwo] }

/-- A sequence of calls with no persistence failure. -/
def sampleCalls : List Call :=
  [{ now := 6, faults := noFault, op := .assign 8 1 },
   { now := 7, faults := noFault, op := .assign 7 2 },
   { now := 8, faults := noFault, op := .submit 1 },
   { now := 9, faults := noFault, op := .grade 1 4 "good" },
   { now := 10, faults := noFault, op := .unassign 7 },
   { now := 11, faults := noFault, op := .assign 8 1 },
   { now := 12, faults := noFault, op := .updateStatus 2 StatusInProgress },
   { now := 13, faults := noFault, op := .complete 2 }]

/-- A student holding two live rows, as left behind by two racing enrollments. -/
def doublyEnrolledDB : DB :=
  { studentCourseworks :=
      [{ sampleAssignment with CourseworkID := 2 },
       { sampleAssignment with ID := 2, CourseworkID := 2, CreatedAt := 6, UpdatedAt := 6 }],
    courseworks := [sampleCoursework, sampleCourseworkTwo] }

/-- A coursework with three slots. -/
def sampleCourseworkThree : Coursework :=
  { ID := 3, CreatedAt := 1, UpdatedAt := 1, DeletedAt := none, Title := "Networks",
    Description := "Write a small TCP stack", Requirements := "", SubjectID := 1,
    TeacherID := 2, MaxStudents := 3, Difficulty := Easy, IsAvailable := true }

/-- Three students enrolled in the three-slot coursework, in the statuses
assigned, submitted and completed. -/
def progressDB : DB :=
  { studentCourseworks :=
      [{ ID := 1, CreatedAt := 5, UpdatedAt := 5, DeletedAt := none, StudentID := 7,
         CourseworkID := 3, Status := StatusAssigned, SubmittedAt := none,
         CompletedAt := none, Grade := none, Feedback := "" },
       { ID := 2, CreatedAt := 6, UpdatedAt := 9, DeletedAt := none, StudentID := 8,
         CourseworkID := 3, Status := StatusSubmitted, SubmittedAt := some 9,
         CompletedAt := none, Grade := none, Feedback := "" },
       { ID := 3, CreatedAt := 7, UpdatedAt := 12, DeletedAt := none, StudentID := 9,
         CourseworkID := 3, Status := StatusCompleted, SubmittedAt := some 10,
         CompletedAt := some 12, Grade := some 5, Feedback := "excellent" }],
    courseworks := [sampleCoursework, sampleCourseworkTwo, sampleCourseworkThree],
    users :=
      [{ ID := 7, FirstName := "Ada", LastName := "Lovelace", Role := "student" },
       { ID := 8, FirstName := "Alan", LastName := "Turing", Role := "student" },
       { ID := 9, FirstName := "Grace", LastName := "Hopper", Role := "student" }] }

/-- A sequence of calls that includes gradings out of range and failing
statements. -/
def gradingCalls : List Call :=
  [{ now := 6, faults := noFault, op := .grade 1 9 "too high" },
   { now := 7, faults := noFault, op := .grade 1 1 "too low" },
   { now := 8, faults := noFault, op := .grade 1 5 "excellent" },
   { now := 9, faults := fun _ => some "database is locked", op := .grade 1 2 "poor" },
   { now := 10, faults := noFault, op := .assign 8 2 },
   { now := 11, faults := noFault, op := .complete 2 },
   { now := 12, faults := noFault, op := .unassign 7 }]

/-- A coursework with two slots that is closed to enrollment. -/
def closedCoursework : Coursework :=
  { sampleCourseworkTwo with ID := 4, Title := "Graphics", IsAvailable := false }

/-- Student 7 enrolled in the single-slot coursework, and a closed coursework
with free slots. -/
def closedDB : DB :=
  { studentCourseworks := [sampleAssignment],
    courseworks := [sampleCoursework, closedCoursework] }

/-- Eleven available courseworks, with the keys 1 to 11. -/
def elevenCourseworksDB : DB :=
  { studentCourseworks := [],
    courseworks := (List.range 11).map (fun i => { sampleCourseworkTwo with ID := i + 1 }) }

/-- Student 7 enrolled in the single-slot coursework, the work submitted at
time 8. -/
def submittedDB : DB :=
  { studentCourseworks :=
      [{ sampleAssignment with Status := StatusSubmitted, SubmittedAt := some 8,
                               UpdatedAt := 8 }],
    courseworks := [sampleCoursework, sampleCourseworkTwo] }

/-- The outcomes of a call whose first statement comes back with an error. -/
def firstStatementFails : Nat → Option String :=
  fun k => if k = 0 then some "database is locked" else none

/-- The outcomes of a call whose second statement comes back with an error. -/
def secondStatementFails : Nat → Option String :=
  fun k => if k = 1 then some "database is locked" else none

/-- The three-student database after the second work was graded: the statuses
are assigned, reviewed and completed. -/
def reviewedDB : DB :=
  (StudentCourseworkManagerImpl.GradeCoursework progressDB 13 noFault 2 4 "good").2

/-! ## Lemmas on the repository statements -/

theorem Rewrites.refl (db : DB) : Rewrites db db :=
  ⟨rfl, id, by simp, fun _ => ⟨rfl, rfl, rfl, fun h => h⟩⟩

theorem Rewrites.trans {a b c : DB} (hab : Rewrites a b) (hbc : Rewrites b c) :
    Rewrites a c := by
  obtain ⟨hc1, g1, hg1, hk1⟩ := hab
  obtain ⟨hc2, g2, hg2, hk2⟩ := hbc
  refine ⟨hc2.trans hc1, g2 ∘ g1, by rw [hg2, hg1, List.map_map], fun r => ?_⟩
  obtain ⟨h1, h2, h3, h4⟩ := hk1 r
  obtain ⟨h5, h6, h7, h8⟩ := hk2 (g1 r)
  exact ⟨h5.trans h1, h6.trans h2, h7.trans h3, fun h => h4 (h8 h)⟩

theorem update_rewrites (db : DB) (id : Nat) (assign : StudentCoursework → StudentCoursework)
    (h : ∀ r, (assign r).ID = r.ID ∧ (assign r).StudentID = r.StudentID ∧
      (assign r).CourseworkID = r.CourseworkID ∧
      (StudentCourseworkLive (assign r) = true → StudentCourseworkLive r = true)) :
    Rewrites db (updateStudentCourseworkByID db id assign).1 := by
  refine ⟨rfl, _, rfl, fun r => ?_⟩
  by_cases hr : (StudentCourseworkLive r && r.ID == id) = true
  · simpa [hr] using h r
  · simp [hr]

theorem enrollmentCount_le_of_rewrites {db db1 : DB} (h : Rewrites db db1) (cid : Nat) :
    enrollmentCount db1 cid ≤ enrollmentCount db cid := by
  obtain ⟨_, g, hg, hk⟩ := h
  unfold enrollmentCount
  rw [hg, List.countP_map]
  apply List.countP_mono_left
  intro r _ hr
  obtain ⟨_, _, h3, h4⟩ := hk r
  simp only [Function.comp_apply, Bool.and_eq_true, beq_iff_eq] at hr ⊢
  exact ⟨h4 hr.1, h3 ▸ hr.2⟩

theorem assignmentCount_le_of_rewrites {db db1 : DB} (h : Rewrites db db1) (sid : Nat) :
    assignmentCount db1 sid ≤ assignmentCount db sid := by
  obtain ⟨_, g, hg, hk⟩ := h
  unfold assignmentCount
  rw [hg, List.countP_map]
  apply List.countP_mono_left
  intro r _ hr
  obtain ⟨_, h2, _, h4⟩ := hk r
  simp only [Function.comp_apply, Bool.and_eq_true, beq_iff_eq] at hr ⊢
  exact ⟨h4 hr.1, h2 ▸ hr.2⟩

namespace studentCourseworkRepository

theorem Delete_rewrites (db : DB) (fault : Option String) (now : Time) (id : Nat) :
    Rewrites db (Delete db fault now id).2 := by
  unfold Delete
  split
  · exact Rewrites.refl db
  · split
    · exact Rewrites.refl db
    · have := update_rewrites db id (fun r => { r with DeletedAt := some now })
        (fun r => ⟨rfl, rfl, rfl, by simp [StudentCourseworkLive]⟩)
      dsimp only
      split <;> exact this

theorem UpdateStatus_rewrites (db : DB) (fault : Option String) (now : Time) (id : Nat)
    (status : CourseworkStatus) : Rewrites db (UpdateStatus db fault now id status).2 := by
  unfold UpdateStatus
  split
  · exact Rewrites.refl db
  · split
    · exact Rewrites.refl db
    · split
      · exact Rewrites.refl db
      · have := update_rewrites db id (fun r => { r with Status := status, UpdatedAt := now })
          (fun r => ⟨rfl, rfl, rfl, fun h => h⟩)
        dsimp only
        split <;> exact this

theorem SetGrade_rewrites (db : DB) (fault : Option String) (now : Time) (id : Nat)
    (grade : Int) (feedback : String) :
    Rewrites db (SetGrade db fault now id grade feedback).2 := by
  unfold SetGrade
  split
  · exact Rewrites.refl db
  · split
    · exact Rewrites.refl db
    · split
      · exact Rewrites.refl db
      · have := update_rewrites db id
          (fun r => { r with Grade := some grade, Feedback := feedback, UpdatedAt := now })
          (fun r => ⟨rfl, rfl, rfl, fun h => h⟩)
        dsimp only
        split <;> exact this

theorem SetSubmitted_rewrites (db : DB) (fault : Option String) (now : Time) (id : Nat)
    (submittedAt : Time) : Rewrites db (SetSubmitted db fault now id submittedAt).2 := by
  unfold SetSubmitted
  split
  · exact Rewrites.refl db
  · split
    · exact Rewrites.refl db
    · have := update_rewrites db id
        (fun r => { r with Status := StatusSubmitted, SubmittedAt := some submittedAt,
                           UpdatedAt := now })
        (fun r => ⟨rfl, rfl, rfl, fun h => h⟩)
      dsimp only
      split <;> exact this

theorem SetCompleted_rewrites (db : DB) (fault : Option String) (now : Time) (id : Nat)
    (completedAt : Time) : Rewrites db (SetCompleted db fault now id completedAt).2 := by
  unfold SetCompleted
  split
  · exact Rewrites.refl db
  · split
    · exact Rewrites.refl db
    · have := update_rewrites db id
        (fun r => { r with Status := StatusCompleted, CompletedAt := some completedAt,
                           UpdatedAt := now })
        (fun r => ⟨rfl, rfl, rfl, fun h => h⟩)
      dsimp only
      split <;> exact this

end studentCourseworkRepository

namespace StudentCourseworkManagerImpl

open studentCourseworkRepository

theorem UpdateCourseworkStatus_rewrites (db : DB) (now : Time) (faults : Nat → Option String)
    (id : Nat) (status : CourseworkStatus) :
    Rewrites db (UpdateCourseworkStatus db now faults id status).2 :=
  UpdateStatus_rewrites db _ now id status

theorem SubmitCoursework_rewrites (db : DB) (now : Time) (faults : Nat → Option String)
    (id : Nat) : Rewrites db (SubmitCoursework db now faults id).2 := by
  unfold SubmitCoursework
  have h1 := UpdateStatus_rewrites db (faults 0) now id StatusSubmitted
  split
  · rename_i heq; rw [heq] at h1; exact h1
  · rename_i heq; rw [heq] at h1
    exact h1.trans (SetSubmitted_rewrites _ _ _ _ _)

theorem GradeCoursework_rewrites (db : DB) (now : Time) (faults : Nat → Option String)
    (id : Nat) (grade : Int) (feedback : String) :
    Rewrites db (GradeCoursework db now faults id grade feedback).2 := by
  unfold GradeCoursework
  have h1 := UpdateStatus_rewrites db (faults 0) now id StatusReviewed
  split
  · rename_i heq; rw [heq] at h1; exact h1
  · rename_i heq; rw [heq] at h1
    exact h1.trans (SetGrade_rewrites _ _ _ _ _ _)

theorem CompleteCoursework_rewrites (db : DB) (now : Time) (faults : Nat → Option String)
    (id : Nat) : Rewrites db (CompleteCoursework db now faults id).2 := by
  unfold CompleteCoursework
  have h1 := UpdateStatus_rewrites db (faults 0) now id StatusCompleted
  split
  · rename_i heq; rw [heq] at h1; exact h1
  · rename_i heq; rw [heq] at h1
    exact h1.trans (SetCompleted_rewrites _ _ _ _ _)

theorem UnassignStudentFromCoursework_rewrites (db : DB) (now : Time)
    (faults : Nat → Option String) (studentID : Nat) :
    Rewrites db (UnassignStudentFromCoursework db now faults studentID).2 := by
  unfold UnassignStudentFromCoursework
  split
  · exact Rewrites.refl db
  · exact Delete_rewrites _ _ _ _

end StudentCourseworkManagerImpl

/-! ## Lemmas on lookups and on enrollment -/

theorem find?_eq_none_iff_countP {α : Type} (p : α → Bool) (l : List α) :
    l.find? p = none ↔ l.countP p = 0 := by
  rw [List.find?_eq_none, List.countP_eq_zero]

theorem assignmentCount_eq_zero_iff (db : DB) (sid : Nat) :
    assignmentCount db sid = 0 ↔ ¬ HasLiveAssignment db sid := by
  unfold assignmentCount HasLiveAssignment
  rw [List.countP_eq_zero]
  simp

namespace studentCourseworkRepository

theorem GetByStudent_ok_of_live (db : DB) (sid : Nat) (hs : sid ≠ 0)
    (h : HasLiveAssignment db sid) : ∃ sc, GetByStudent db none sid = .ok sc := by
  unfold GetByStudent
  rw [if_neg hs]
  dsimp only
  cases hf : db.studentCourseworks.find?
      (fun r => StudentCourseworkLive r && r.StudentID == sid) with
  | some sc => exact ⟨sc, rfl⟩
  | none =>
    rw [find?_eq_none_iff_countP] at hf
    exact absurd h ((assignmentCount_eq_zero_iff db sid).1 hf)

theorem GetByStudent_error_of_not_live (db : DB) (fault : Option String) (sid : Nat)
    (h : ¬ HasLiveAssignment db sid) : ∃ e, GetByStudent db fault sid = .error e := by
  unfold GetByStudent
  split
  · exact ⟨_, rfl⟩
  · split
    · exact ⟨_, rfl⟩
    · cases hf : db.studentCourseworks.find?
          (fun r => StudentCourseworkLive r && r.StudentID == sid) with
      | none => exact ⟨_, rfl⟩
      | some sc =>
        have hm := List.mem_of_find?_eq_some hf
        have hp := List.find?_some hf
        simp only [Bool.and_eq_true, beq_iff_eq] at hp
        exact absurd ⟨sc, hm, hp.1, hp.2⟩ h

theorem GetByStudent_ok_live (db : DB) (fault : Option String) (sid : Nat)
    (sc : StudentCoursework) (h : GetByStudent db fault sid = .ok sc) :
    sc ∈ db.studentCourseworks ∧ StudentCourseworkLive sc = true ∧ sc.StudentID = sid ∧
      sid ≠ 0 := by
  unfold GetByStudent at h
  split at h
  · cases h
  · rename_i hs
    split at h
    · cases h
    · split at h
      · cases h
      · rename_i hf
        cases h
        have hm := List.mem_of_find?_eq_some hf
        have hp := List.find?_some hf
        simp only [Bool.and_eq_true, beq_iff_eq] at hp
        exact ⟨hm, hp.1, hp.2, hs⟩

end studentCourseworkRepository

namespace courseworkRepository

theorem GetByID_found (db : DB) (fault : Option String) (id : Nat) (cw : Coursework)
    (h : GetByID db fault id = .ok cw) :
    cw ∈ db.courseworks ∧ CourseworkLive cw = true ∧ cw.ID = id ∧ id ≠ 0 ∧ fault = none := by
  unfold GetByID at h
  split at h
  · cases h
  · rename_i hs
    split at h
    · cases h
    · split at h
      · cases h
      · rename_i hf
        cases h
        have hm := List.mem_of_find?_eq_some hf
        have hp := List.find?_some hf
        simp only [Bool.and_eq_true, beq_iff_eq] at hp
        exact ⟨hm, hp.1, hp.2, hs, rfl⟩

theorem GetWithStudentCount_of_GetByID (db : DB) (id : Nat) (cw : Coursework)
    (h : GetByID db none id = .ok cw) :
    GetWithStudentCount db none none id = .ok (cw, (enrollmentCount db id : Int)) := by
  have hid := (GetByID_found db none id cw h).2.2.2.1
  unfold GetWithStudentCount
  rw [if_neg hid, h]
  rfl

theorem GetWithStudentCount_ok (db : DB) (f1 f2 : Option String) (id : Nat) (cw : Coursework)
    (count : Int) (h : GetWithStudentCount db f1 f2 id = .ok (cw, count)) :
    GetByID db f1 id = .ok cw ∧ count = (enrollmentCount db id : Int) := by
  unfold GetWithStudentCount at h
  split at h
  · cases h
  · split at h
    · cases h
    · rename_i cw1 hg
      split at h
      · cases h
      · simp only [Except.ok.injEq, Prod.mk.injEq] at h
        obtain ⟨h1, h2⟩ := h
        subst h1
        exact ⟨hg, h2.symm⟩

end courseworkRepository

namespace StudentCourseworkManagerImpl

open studentCourseworkRepository courseworkRepository

/-- A failed enrollment returns the database it was given. -/
theorem AssignStudentToCoursework_error_unchanged (db : DB) (now : Time)
    (faults : Nat → Option String) (sid cid : Nat) (e : Err)
    (h : (AssignStudentToCoursework db now faults sid cid).1 = .error e) :
    (AssignStudentToCoursework db now faults sid cid).2 = db := by
  unfold AssignStudentToCoursework at h ⊢
  split
  · rfl
  · split
    · rfl
    · split
      · rfl
      · rename_i hlook _ _ _ hcnt hcap
        simp only [hlook, hcnt, hcap, if_false] at h
        unfold studentCourseworkRepository.Create at h ⊢
        split
        · rfl
        · rename_i hz
          rw [if_neg hz] at h
          split
          · rfl
          · rename_i hf
            simp only [hf] at h
            cases h

/-- What a successful enrollment went through and what it wrote. -/
theorem AssignStudentToCoursework_ok (db db1 : DB) (now : Time)
    (faults : Nat → Option String) (sid cid : Nat) (row : StudentCoursework)
    (h : AssignStudentToCoursework db now faults sid cid = (.ok row, db1)) :
    (∃ e, studentCourseworkRepository.GetByStudent db (faults 0) sid = .error e) ∧
    sid ≠ 0 ∧ cid ≠ 0 ∧
    (∃ cw, courseworkRepository.GetByID db (faults 1) cid = .ok cw ∧
      (enrollmentCount db cid : Int) < cw.MaxStudents) ∧
    row.DeletedAt = none ∧ row.StudentID = sid ∧ row.CourseworkID = cid ∧
    db1 = { db with studentCourseworks := db.studentCourseworks ++ [row] } := by
  unfold AssignStudentToCoursework at h
  split at h
  · cases h
  · rename_i e hlook
    split at h
    · cases h
    · rename_i cw count hcnt
      obtain ⟨hget, hcount⟩ := GetWithStudentCount_ok db _ _ cid cw count hcnt
      split at h
      · cases h
      · rename_i hcap
        unfold studentCourseworkRepository.Create at h
        split at h
        · cases h
        · rename_i hz
          simp only [not_or] at hz
          split at h
          · cases h
          · simp only [Prod.mk.injEq, Except.ok.injEq] at h
            obtain ⟨h1, h2⟩ := h
            subst h1
            refine ⟨⟨e, hlook⟩, hz.1, hz.2, ⟨cw, hget, ?_⟩, rfl, rfl, rfl, h2.symm⟩
            rw [← hcount]
            exact not_le.1 hcap

/-- Enrollment when the by-student lookup finds nothing, the coursework is found
and has a free slot, and no statement fails. -/
theorem AssignStudentToCoursework_free (db : DB) (now : Time) (sid cid : Nat)
    (cw : Coursework) (hs : sid ≠ 0) (hfree : ¬ HasLiveAssignment db sid)
    (hcw : courseworkRepository.GetByID db none cid = .ok cw)
    (hcap : (enrollmentCount db cid : Int) < cw.MaxStudents) :
    AssignStudentToCoursework db now noFault sid cid =
      (.ok { ID := nextStudentCourseworkID db, CreatedAt := now, UpdatedAt := now,
             DeletedAt := none, StudentID := sid, CourseworkID := cid,
             Status := StatusAssigned, SubmittedAt := none, CompletedAt := none,
             Grade := none, Feedback := "" },
       { db with studentCourseworks := db.studentCourseworks ++
          [{ ID := nextStudentCourseworkID db, CreatedAt := now, UpdatedAt := now,
             DeletedAt := none, StudentID := sid, CourseworkID := cid,
             Status := StatusAssigned, SubmittedAt := none, CompletedAt := none,
             Grade := none, Feedback := "" }] }) := by
  obtain ⟨e, he⟩ := GetByStudent_error_of_not_live db none sid hfree
  have hid := (GetByID_found db none cid cw hcw).2.2.2.1
  unfold AssignStudentToCoursework
  simp only [noFault, he, GetWithStudentCount_of_GetByID db cid cw hcw]
  rw [if_neg (not_le.2 hcap)]
  unfold studentCourseworkRepository.Create
  simp [hs, hid]

/-- Enrollment when the by-student lookup finds nothing, the coursework is found
and is full. -/
theorem AssignStudentToCoursework_full (db : DB) (now : Time) (sid cid : Nat)
    (cw : Coursework) (hfree : ¬ HasLiveAssignment db sid)
    (hcw : courseworkRepository.GetByID db none cid = .ok cw)
    (hcap : cw.MaxStudents ≤ (enrollmentCount db cid : Int)) :
    AssignStudentToCoursework db now noFault sid cid = (.error .noSlots, db) := by
  obtain ⟨e, he⟩ := GetByStudent_error_of_not_live db none sid hfree
  unfold AssignStudentToCoursework
  simp only [noFault, he, GetWithStudentCount_of_GetByID db cid cw hcw]
  rw [if_pos hcap]

end StudentCourseworkManagerImpl

/-! ## Lemmas on sequential executions -/

open StudentCourseworkManagerImpl in
/-- A call either rewrites rows in place or is a successful enrollment. -/
theorem step_rewrites_or_enrolls (db : DB) (c : Call) :
    Rewrites db (step db c) ∨
    ∃ sid cid row, c.op = .assign sid cid ∧
      AssignStudentToCoursework db c.now c.faults sid cid = (.ok row, step db c) := by
  unfold step
  cases hop : c.op with
  | assign sid cid =>
    dsimp only
    cases hres : (AssignStudentToCoursework db c.now c.faults sid cid).1 with
    | error e =>
      left
      rw [AssignStudentToCoursework_error_unchanged db c.now c.faults sid cid e hres]
      exact Rewrites.refl db
    | ok row =>
      right
      exact ⟨sid, cid, row, rfl, Prod.ext hres rfl⟩
  | unassign sid => exact Or.inl (UnassignStudentFromCoursework_rewrites _ _ _ _)
  | updateStatus id status => exact Or.inl (UpdateCourseworkStatus_rewrites _ _ _ _ _)
  | submit id => exact Or.inl (SubmitCoursework_rewrites _ _ _ _)
  | grade id g f => exact Or.inl (GradeCoursework_rewrites _ _ _ _ _ _)
  | complete id => exact Or.inl (CompleteCoursework_rewrites _ _ _ _)

theorem enrollmentCount_append (db : DB) (row : StudentCoursework) (x : Nat) :
    enrollmentCount { db with studentCourseworks := db.studentCourseworks ++ [row] } x =
      enrollmentCount db x +
        (if (StudentCourseworkLive row && row.CourseworkID == x) = true then 1 else 0) := by
  simp [enrollmentCount, List.countP_append, List.countP_cons]

theorem assignmentCount_append (db : DB) (row : StudentCoursework) (x : Nat) :
    assignmentCount { db with studentCourseworks := db.studentCourseworks ++ [row] } x =
      assignmentCount db x +
        (if (StudentCourseworkLive row && row.StudentID == x) = true then 1 else 0) := by
  simp [assignmentCount, List.countP_append, List.countP_cons]

theorem step_courseworks (db : DB) (c : Call) : (step db c).courseworks = db.courseworks := by
  rcases step_rewrites_or_enrolls db c with h | ⟨sid, cid, row, _, h⟩
  · exact h.1
  · have := (StudentCourseworkManagerImpl.AssignStudentToCoursework_ok db _ _ _ _ _ row h).2.2.2.2.2.2.2
    rw [this]

theorem CapacityBound_step (db : DB) (c : Call) (hk : CourseworkKeysUnique db)
    (h : CapacityBound db) : CapacityBound (step db c) := by
  intro cw hcw
  rw [step_courseworks] at hcw
  rcases step_rewrites_or_enrolls db c with hr | ⟨sid, cid, row, _, hr⟩
  · have hle := enrollmentCount_le_of_rewrites hr cw.ID
    have := h cw hcw
    omega
  · obtain ⟨_, _, _, ⟨cw1, hget, hcap⟩, hlive, _, hrc, hdb⟩ :=
      StudentCourseworkManagerImpl.AssignStudentToCoursework_ok db _ _ _ _ _ row hr
    rw [hdb, enrollmentCount_append]
    have hold := h cw hcw
    by_cases hx : cw.ID = cid
    · obtain ⟨hmem, _, hid1, _, _⟩ := courseworkRepository.GetByID_found db _ cid cw1 hget
      have heq : cw1 = cw :=
        List.inj_on_of_nodup_map hk hmem hcw (by simp only [hid1, hx])
      subst heq
      rw [hx]
      split <;> omega
    · have : (StudentCourseworkLive row && row.CourseworkID == cw.ID) = false := by
        simp only [Bool.and_eq_false_imp, beq_eq_false_iff_ne, ne_eq]
        intro _ hc
        exact hx (hc.symm.trans hrc)
      rw [this]
      simpa using hold

theorem SingleAssignment_step (db : DB) (c : Call)
    (hf : ∀ sid cid, c.op = .assign sid cid → c.faults 0 = none)
    (h : SingleAssignment db) : SingleAssignment (step db c) := by
  intro x
  rcases step_rewrites_or_enrolls db c with hr | ⟨sid, cid, row, hop, hr⟩
  · exact le_trans (assignmentCount_le_of_rewrites hr x) (h x)
  · obtain ⟨⟨e, hlook⟩, hs, _, _, hlive, hrs, _, hdb⟩ :=
      StudentCourseworkManagerImpl.AssignStudentToCoursework_ok db _ _ _ _ _ row hr
    rw [hdb, assignmentCount_append]
    by_cases hx : x = sid
    · subst hx
      have hnone : ¬ HasLiveAssignment db x := by
        intro hl
        obtain ⟨sc, hsc⟩ := studentCourseworkRepository.GetByStudent_ok_of_live db x hs hl
        rw [hf x cid hop, hsc] at hlook
        cases hlook
      rw [(assignmentCount_eq_zero_iff db x).2 hnone]
      split <;> omega
    · have : (StudentCourseworkLive row && row.StudentID == x) = false := by
        simp only [Bool.and_eq_false_imp, beq_eq_false_iff_ne, ne_eq]
        intro _ hc
        exact hx (hc.symm.trans hrs)
      rw [this]
      simpa using h x

/-! ## The workflow invariants -/

/-- C1 (P1, capacity bound): from a database in which no coursework has more
live assignment rows than its `MaxStudents`, every sequence of workflow calls
executed one after the other (assign, unassign, generic status update, submit,
grade, complete; each succeeding or failing, whatever the outcomes of its
statements) reaches a database in which no coursework has more live rows than
its `MaxStudents`.  The primary key of `courseworks` is unique. -/
theorem capacity_bound_invariant (db : DB) (calls : List Call)
    (hk : CourseworkKeysUnique db) (h : CapacityBound db) :
    CapacityBound (run db calls) := by
  induction calls generalizing db with
  | nil => exact h
  | cons c rest ih =>
    have hk1 : CourseworkKeysUnique (step db c) := by
      unfold CourseworkKeysUnique
      rw [step_courseworks]
      exact hk
    exact ih (step db c) hk1 (CapacityBound_step db c hk h)

theorem capacity_bound_invariant_witness :
    CourseworkKeysUnique enrolledDB ∧ CapacityBound enrolledDB ∧
      CapacityBound (run enrolledDB sampleCalls) :=
  ⟨by decide, by decide, capacity_bound_invariant enrolledDB sampleCalls (by decide) (by decide)⟩

/-- Single assignment is kept along the sequences in which the by-student
lookup of each enrollment is answered by the database: from a database in which
every student has at most one live assignment row, such a sequence of workflow
calls reaches a database in which every student has at most one live row. -/
theorem single_assignment_invariant (db : DB) (calls : List Call)
    (hf : ∀ c ∈ calls, ∀ sid cid, c.op = .assign sid cid → c.faults 0 = none)
    (h : SingleAssignment db) : SingleAssignment (run db calls) := by
  induction calls generalizing db with
  | nil => exact h
  | cons c rest ih =>
    exact ih (step db c) (fun c1 hc1 => hf c1 (List.mem_cons_of_mem c hc1))
      (SingleAssignment_step db c (hf c (List.mem_cons_self c rest)) h)

theorem single_assignment_invariant_witness :
    SingleAssignment enrolledDB ∧ SingleAssignment (run enrolledDB sampleCalls) :=
  have h0 : SingleAssignment enrolledDB := fun _ => List.countP_le_length _
  ⟨h0, single_assignment_invariant enrolledDB sampleCalls
    (by
      intro c hc sid cid _
      simp only [sampleCalls, List.mem_cons, List.mem_singleton, List.not_mem_nil,
        or_false] at hc
      rcases hc with rfl | rfl | rfl | rfl | rfl | rfl | rfl | rfl <;> rfl)
    h0⟩

/-- C2 (P2, single assignment), the code at a failing input: student 7 has one
live row, and so has every student; the one call that follows enrolls student 7
in coursework 2 while its by-student lookup comes back with a persistence
failure.  The call takes the failed lookup for "not assigned" and inserts a
second row: after this sequence of one call student 7 has two live rows, and
single assignment no longer holds. -/
theorem single_assignment_broken_by_failed_lookup :
    SingleAssignment enrolledDB ∧
    assignmentCount
      (run enrolledDB [{ now := 9, faults := firstStatementFails, op := .assign 7 2 }]) 7 = 2 ∧
    ¬ SingleAssignment
      (run enrolledDB [{ now := 9, faults := firstStatementFails, op := .assign 7 2 }]) :=
  ⟨fun _ => List.countP_le_length _, by decide, fun h => absurd (h 7) (by decide)⟩

/-! ## Enrollment -/

open StudentCourseworkManagerImpl

/-- C3 (enrollment success): for a non-zero student id with no live row and a
coursework that `GetByID` finds and whose live-row count is below its
`MaxStudents`, `AssignStudentToCoursework` (no statement failing) succeeds; the
assignment table is the old one followed by the returned record, the
courseworks are untouched, and the record carries the given student and
coursework ids, status `assigned`, and `CreatedAt = UpdatedAt = now`. -/
theorem enrollment_success (db : DB) (now : Time) (sid cid : Nat) (cw : Coursework)
    (hs : sid ≠ 0) (hfree : ¬ HasLiveAssignment db sid)
    (hcw : courseworkRepository.GetByID db none cid = .ok cw)
    (hcap : (enrollmentCount db cid : Int) < cw.MaxStudents) :
    ∃ row db1, AssignStudentToCoursework db now noFault sid cid = (.ok row, db1) ∧
      db1.studentCourseworks = db.studentCourseworks ++ [row] ∧
      db1.studentCourseworks.length = db.studentCourseworks.length + 1 ∧
      db1.courseworks = db.courseworks ∧
      row.StudentID = sid ∧ row.CourseworkID = cid ∧ row.Status = StatusAssigned ∧
      row.CreatedAt = now ∧ row.UpdatedAt = now ∧ row.DeletedAt = none := by
  refine ⟨_, _, AssignStudentToCoursework_free db now sid cid cw hs hfree hcw hcap,
    rfl, ?_, rfl, rfl, rfl, rfl, rfl, rfl, rfl⟩
  simp

theorem enrollment_success_witness :
    ∃ row db1, AssignStudentToCoursework enrolledDB 6 noFault 8 2 = (.ok row, db1) ∧
      db1.studentCourseworks = enrolledDB.studentCourseworks ++ [row] ∧
      db1.studentCourseworks.length = enrolledDB.studentCourseworks.length + 1 ∧
      db1.courseworks = enrolledDB.courseworks ∧
      row.StudentID = 8 ∧ row.CourseworkID = 2 ∧ row.Status = StatusAssigned ∧
      row.CreatedAt = 6 ∧ row.UpdatedAt = 6 ∧ row.DeletedAt = none :=
  enrollment_success enrolledDB 6 8 2 sampleCourseworkTwo (by decide) (by decide)
    (by decide) (by decide)

/-- C4 (AlreadyAssigned takes precedence and ignores status): when the student
(a non-zero id) has a live row, whatever its status, and the by-student lookup
is answered by the database, `AssignStudentToCoursework` fails with
"student already has an assigned coursework" and leaves the database as it
was, for every coursework id: a coursework with a free slot, a full one, a
missing one. -/
theorem already_assigned_precedence (db : DB) (now : Time) (faults : Nat → Option String)
    (sid cid : Nat) (hs : sid ≠ 0) (hl : HasLiveAssignment db sid)
    (h0 : faults 0 = none) :
    AssignStudentToCoursework db now faults sid cid = (.error .alreadyAssigned, db) := by
  obtain ⟨sc, hsc⟩ := studentCourseworkRepository.GetByStudent_ok_of_live db sid hs hl
  unfold AssignStudentToCoursework
  rw [h0, hsc]

theorem already_assigned_precedence_witness :
    AssignStudentToCoursework enrolledDB 6 noFault 7 2 = (.error .alreadyAssigned, enrolledDB) ∧
    AssignStudentToCoursework enrolledDB 6 noFault 7 1 = (.error .alreadyAssigned, enrolledDB) ∧
    AssignStudentToCoursework enrolledDB 6 noFault 7 9 = (.error .alreadyAssigned, enrolledDB) :=
  ⟨already_assigned_precedence enrolledDB 6 noFault 7 2 (by decide) (by decide) rfl,
   already_assigned_precedence enrolledDB 6 noFault 7 1 (by decide) (by decide) rfl,
   already_assigned_precedence enrolledDB 6 noFault 7 9 (by decide) (by decide) rfl⟩

/-- C5 (CapacityExceeded iff full): for a student with no live row and a
coursework that `GetByID` finds, `AssignStudentToCoursework` (no statement
failing) fails with "no slots available for this coursework" exactly when the
number of live rows referencing the coursework is at least its `MaxStudents`.
In particular, when `MaxStudents = 1` and one enrollment has succeeded, the
enrollment of any further student with no live row fails with that error. -/
theorem capacity_exceeded_iff_full (db : DB) (now : Time) (sid cid : Nat) (cw : Coursework)
    (hfree : ¬ HasLiveAssignment db sid)
    (hcw : courseworkRepository.GetByID db none cid = .ok cw) :
    ((AssignStudentToCoursework db now noFault sid cid).1 = .error .noSlots ↔
      cw.MaxStudents ≤ (enrollmentCount db cid : Int)) ∧
    (cw.MaxStudents = 1 → ∀ row db1,
      AssignStudentToCoursework db now noFault sid cid = (.ok row, db1) →
      ∀ now2 sid2, ¬ HasLiveAssignment db1 sid2 →
        AssignStudentToCoursework db1 now2 noFault sid2 cid = (.error .noSlots, db1)) := by
  constructor
  · constructor
    · intro herr
      by_contra hcap
      obtain ⟨e, he⟩ := studentCourseworkRepository.GetByStudent_error_of_not_live db none sid hfree
      have hid := (courseworkRepository.GetByID_found db none cid cw hcw).2.2.2.1
      unfold AssignStudentToCoursework at herr
      simp only [noFault, he, courseworkRepository.GetWithStudentCount_of_GetByID db cid cw hcw]
        at herr
      rw [if_neg hcap] at herr
      unfold studentCourseworkRepository.Create at herr
      dsimp only at herr
      split at herr <;> cases herr
    · intro hcap
      rw [AssignStudentToCoursework_full db now sid cid cw hfree hcw hcap]
  · intro hmax row db1 hok now2 sid2 hfree2
    obtain ⟨_, _, _, _, hlive, _, hrc, hdb⟩ :=
      AssignStudentToCoursework_ok db db1 now noFault sid cid row hok
    have hcw1 : courseworkRepository.GetByID db1 none cid = .ok cw := by
      rw [hdb]; exact hcw
    apply AssignStudentToCoursework_full db1 now2 sid2 cid cw hfree2 hcw1
    rw [hdb, enrollmentCount_append, hmax]
    have : (StudentCourseworkLive row && row.CourseworkID == cid) = true := by
      simp [StudentCourseworkLive, hlive, hrc]
    rw [if_pos this]
    push_cast
    omega

theorem capacity_exceeded_iff_full_witness :
    ((AssignStudentToCoursework emptyDB 5 noFault 7 1).1 = .error .noSlots ↔
      sampleCoursework.MaxStudents ≤ (enrollmentCount emptyDB 1 : Int)) ∧
    (sampleCoursework.MaxStudents = 1 → ∀ row db1,
      AssignStudentToCoursework emptyDB 5 noFault 7 1 = (.ok row, db1) →
      ∀ now2 sid2, ¬ HasLiveAssignment db1 sid2 →
        AssignStudentToCoursework db1 now2 noFault sid2 1 = (.error .noSlots, db1)) :=
  capacity_exceeded_iff_full emptyDB 5 7 1 sampleCoursework (by decide) (by decide)

/-- C6 as stated fails at coursework id 0: no coursework is stored under 0, the
student has no live row, and the enrollment is rejected with
"invalid coursework ID", which is not the not-found error. -/
theorem zero_coursework_id_rejected_as_invalid :
    ¬ HasLiveAssignment emptyDB 7 ∧ CourseworkMissing emptyDB 0 ∧
    AssignStudentToCoursework emptyDB 5 noFault 7 0 = (.error .invalidCourseworkID, emptyDB) ∧
    (AssignStudentToCoursework emptyDB 5 noFault 7 0).1 ≠ .error (.courseworkNotFound 0) := by
  decide

/-- C6, amended: for a student with no live row and a coursework id under which
no live coursework is stored, `AssignStudentToCoursework` (no statement
failing) creates no row and leaves the database as it was; it fails with
"coursework with ID %d not found" when the id is non-zero and with
"invalid coursework ID" when the id is 0. -/
theorem enrollment_missing_coursework (db : DB) (now : Time) (sid cid : Nat)
    (hfree : ¬ HasLiveAssignment db sid) (hmiss : CourseworkMissing db cid) :
    AssignStudentToCoursework db now noFault sid cid =
      (.error (if cid = 0 then .invalidCourseworkID else .courseworkNotFound cid), db) := by
  obtain ⟨e, he⟩ := studentCourseworkRepository.GetByStudent_error_of_not_live db none sid hfree
  unfold AssignStudentToCoursework
  simp only [noFault, he]
  unfold courseworkRepository.GetWithStudentCount courseworkRepository.GetByID
  by_cases hz : cid = 0
  · simp [hz]
  · have hnone : db.courseworks.find? (fun c => CourseworkLive c && c.ID == cid) = none := by
      rw [List.find?_eq_none]
      intro c hc
      simp only [Bool.and_eq_true, beq_iff_eq, not_and]
      exact hmiss c hc
    simp [hz, hnone]

theorem enrollment_missing_coursework_witness :
    AssignStudentToCoursework emptyDB 5 noFault 7 9 = (.error (.courseworkNotFound 9), emptyDB) :=
  enrollment_missing_coursework emptyDB 5 7 9 (by decide) (by decide)

/-- C7 (enrollment is atomic on failure): whenever `AssignStudentToCoursework`
returns an error, whatever the arguments and the outcomes of its statements,
the database after the call (assignments and courseworks) is the database
before the call. -/
theorem enrollment_atomic_on_failure (db : DB) (now : Time) (faults : Nat → Option String)
    (sid cid : Nat) (e : Err)
    (h : (AssignStudentToCoursework db now faults sid cid).1 = .error e) :
    (AssignStudentToCoursework db now faults sid cid).2 = db :=
  AssignStudentToCoursework_error_unchanged db now faults sid cid e h

theorem enrollment_atomic_on_failure_witness :
    (AssignStudentToCoursework enrolledDB 6 noFault 8 1).1 = .error .noSlots ∧
    (AssignStudentToCoursework enrolledDB 6 noFault 8 1).2 = enrolledDB :=
  ⟨by decide, enrollment_atomic_on_failure enrolledDB 6 noFault 8 1 .noSlots (by decide)⟩

/-! ## Lemmas on updates by primary key -/

theorem find?_map_of_preserves {α : Type} (p : α → Bool) (g : α → α)
    (hp : ∀ x, p (g x) = p x) (l : List α) :
    (l.map g).find? p = (l.find? p).map g := by
  induction l with
  | nil => rfl
  | cons a t ih =>
    simp only [List.map_cons, List.find?_cons, hp a]
    cases p a with
    | true => rfl
    | false => exact ih

theorem countP_map_of_preserves {α : Type} (p : α → Bool) (g : α → α)
    (hp : ∀ x, p (g x) = p x) (l : List α) :
    (l.map g).countP p = l.countP p := by
  rw [List.countP_map]
  congr 1
  funext x
  exact hp x

/-- An update that keeps the key and the liveness of the rows it touches keeps
the match `deleted_at IS NULL AND id = ?` of every row. -/
theorem update_match_preserved (id : Nat) (assign : StudentCoursework → StudentCoursework)
    (ha : ∀ r, (assign r).ID = r.ID ∧ (assign r).DeletedAt = r.DeletedAt)
    (x : StudentCoursework) :
    (fun r => StudentCourseworkLive r && r.ID == id)
        (if (StudentCourseworkLive x && x.ID == id) = true then assign x else x) =
      (fun r => StudentCourseworkLive r && r.ID == id) x := by
  by_cases hx : (StudentCourseworkLive x && x.ID == id) = true
  · rw [if_pos hx]
    simp only [StudentCourseworkLive, (ha x).1, (ha x).2]
  · rw [if_neg hx]

namespace studentCourseworkRepository

theorem GetByID_ok (db : DB) (fault : Option String) (id : Nat) (r : StudentCoursework)
    (h : GetByID db fault id = .ok r) :
    id ≠ 0 ∧ db.studentCourseworks.find? (fun r => StudentCourseworkLive r && r.ID == id) =
      some r := by
  unfold GetByID at h
  split at h
  · cases h
  · rename_i hs
    split at h
    · cases h
    · split at h
      · cases h
      · rename_i hf
        cases h
        exact ⟨hs, hf⟩

theorem GetByID_of_find (db : DB) (id : Nat) (r : StudentCoursework) (hid : id ≠ 0)
    (h : db.studentCourseworks.find? (fun r => StudentCourseworkLive r && r.ID == id) =
      some r) : GetByID db none id = .ok r := by
  unfold GetByID
  rw [if_neg hid]
  simp only [h]

theorem affected_ne_zero_of_GetByID (db : DB) (fault : Option String) (id : Nat)
    (r : StudentCoursework) (assign : StudentCoursework → StudentCoursework)
    (h : GetByID db fault id = .ok r) :
    (updateStudentCourseworkByID db id assign).2 ≠ 0 := by
  obtain ⟨_, hf⟩ := GetByID_ok db fault id r h
  unfold updateStudentCourseworkByID
  intro hz
  rw [← find?_eq_none_iff_countP, hf] at hz
  cases hz

theorem GetByID_update (db : DB) (id : Nat) (r : StudentCoursework)
    (assign : StudentCoursework → StudentCoursework)
    (ha : ∀ r, (assign r).ID = r.ID ∧ (assign r).DeletedAt = r.DeletedAt)
    (h : GetByID db none id = .ok r) :
    GetByID (updateStudentCourseworkByID db id assign).1 none id = .ok (assign r) := by
  obtain ⟨hid, hf⟩ := GetByID_ok db none id r h
  apply GetByID_of_find _ id _ hid
  unfold updateStudentCourseworkByID
  dsimp only
  rw [find?_map_of_preserves _ _ (update_match_preserved id assign ha), hf]
  have hp := List.find?_some hf
  simp only [Option.map_some']
  rw [if_pos hp]

theorem UpdateStatus_found (db : DB) (now : Time) (id : Nat) (status : CourseworkStatus)
    (r : StudentCoursework) (h : GetByID db none id = .ok r)
    (hv : status = StatusAssigned ∨ status = StatusInProgress ∨ status = StatusSubmitted ∨
      status = StatusReviewed ∨ status = StatusCompleted ∨ status = StatusFailed) :
    UpdateStatus db none now id status =
      (.ok (), (updateStudentCourseworkByID db id
        (fun r => { r with Status := status, UpdatedAt := now })).1) := by
  have hid := (GetByID_ok db none id r h).1
  have hne := affected_ne_zero_of_GetByID db none id r
    (fun r => { r with Status := status, UpdatedAt := now }) h
  unfold UpdateStatus
  rw [if_neg hid, if_neg (not_not.2 hv)]
  dsimp only
  rw [if_neg hne]

theorem SetGrade_found (db : DB) (now : Time) (id : Nat) (grade : Int) (feedback : String)
    (r : StudentCoursework) (h : GetByID db none id = .ok r) (hg : 2 ≤ grade ∧ grade ≤ 5) :
    SetGrade db none now id grade feedback =
      (.ok (), (updateStudentCourseworkByID db id
        (fun r => { r with Grade := some grade, Feedback := feedback, UpdatedAt := now })).1) := by
  have hid := (GetByID_ok db none id r h).1
  have hne := affected_ne_zero_of_GetByID db none id r
    (fun r => { r with Grade := some grade, Feedback := feedback, UpdatedAt := now }) h
  have hgr : ¬ (grade < 2 ∨ grade > 5) := by omega
  unfold SetGrade
  rw [if_neg hid, if_neg hgr]
  dsimp only
  rw [if_neg hne]

end studentCourseworkRepository

/-! ## Grading -/

/-- C8 as stated fails at an assignment id that matches no row: with grade 7
the call fails with "student coursework with ID 1 not found", not with the
invalid-grade error. -/
theorem grade_out_of_range_unknown_id :
    ((7 : Int) < 2 ∨ (7 : Int) > 5) ∧
    GradeCoursework emptyDB 9 noFault 1 7 "late" = (.error (.assignmentNotFound 1), emptyDB) ∧
    (GradeCoursework emptyDB 9 noFault 1 7 "late").1 ≠ .error (.invalidGrade 7) := by
  decide

/-- C8, amended: `GradeCoursework` called with a grade below 2 or above 5
fails for every assignment id, every feedback and every outcome of its
statements; the error is "invalid grade: %d" whenever the id is that of a live
assignment row and the status update that runs first is answered by the
database. -/
theorem grade_out_of_range_fails (db : DB) (now : Time) (faults : Nat → Option String)
    (id : Nat) (grade : Int) (feedback : String) (hg : grade < 2 ∨ grade > 5) :
    (∃ e, (GradeCoursework db now faults id grade feedback).1 = .error e) ∧
    (∀ r, studentCourseworkRepository.GetByID db none id = .ok r → faults 0 = none →
      (GradeCoursework db now faults id grade feedback).1 = .error (.invalidGrade grade)) := by
  constructor
  · unfold GradeCoursework
    split
    · exact ⟨_, rfl⟩
    · unfold studentCourseworkRepository.SetGrade
      split
      · exact ⟨_, rfl⟩
      · exact ⟨_, rfl⟩
  · intro r hr h0
    have hid := (studentCourseworkRepository.GetByID_ok db none id r hr).1
    unfold GradeCoursework
    rw [h0, studentCourseworkRepository.UpdateStatus_found db now id StatusReviewed r hr
      (by simp)]
    dsimp only
    unfold studentCourseworkRepository.SetGrade
    rw [if_neg hid, if_pos hg]

theorem grade_out_of_range_fails_witness :
    (∃ e, (GradeCoursework enrolledDB 9 noFault 1 7 "late").1 = .error e) ∧
    (∀ r, studentCourseworkRepository.GetByID enrolledDB none 1 = .ok r → noFault 0 = none →
      (GradeCoursework enrolledDB 9 noFault 1 7 "late").1 = .error (.invalidGrade 7)) :=
  grade_out_of_range_fails enrolledDB 9 noFault 1 7 "late" (by decide)

/-- C9, the code at a failing input: grading the live row 1 with grade 7 fails
with "invalid grade: 7", yet the row has been written: its status went from
`assigned` to `reviewed` (and `UpdatedAt` to the time of the call), because the
status update runs before the grade is validated. -/
theorem grade_out_of_range_writes_status :
    studentCourseworkRepository.GetByID enrolledDB none 1 = .ok sampleAssignment ∧
    GradeCoursework enrolledDB 9 noFault 1 7 "late" =
      (.error (.invalidGrade 7),
       { enrolledDB with studentCourseworks :=
          [{ sampleAssignment with Status := StatusReviewed, UpdatedAt := 9 }] }) ∧
    (GradeCoursework enrolledDB 9 noFault 1 7 "late").2 ≠ enrolledDB := by
  decide

/-- C10 (grade success): for a live assignment row `r` found under the id, a
grade `g` with `2 ≤ g ≤ 5` and a feedback `f`, `GradeCoursework` (no statement
failing) succeeds; afterwards the row found under the id has status
`reviewed`, grade `g` and feedback `f`, and the `StudentID`, `CourseworkID`,
`SubmittedAt` and `CompletedAt` of `r`. -/
theorem grade_success (db : DB) (now : Time) (id : Nat) (g : Int) (f : String)
    (r : StudentCoursework) (hr : studentCourseworkRepository.GetByID db none id = .ok r)
    (hg : 2 ≤ g ∧ g ≤ 5) :
    ∃ db1 r1, GradeCoursework db now noFault id g f = (.ok (), db1) ∧
      studentCourseworkRepository.GetByID db1 none id = .ok r1 ∧
      r1.Status = StatusReviewed ∧ r1.Grade = some g ∧ r1.Feedback = f ∧
      r1.StudentID = r.StudentID ∧ r1.CourseworkID = r.CourseworkID ∧
      r1.SubmittedAt = r.SubmittedAt ∧ r1.CompletedAt = r.CompletedAt := by
  have h1 := studentCourseworkRepository.UpdateStatus_found db now id StatusReviewed r hr
    (by simp)
  have hr1 := studentCourseworkRepository.GetByID_update db id r
    (fun r => { r with Status := StatusReviewed, UpdatedAt := now }) (fun _ => ⟨rfl, rfl⟩) hr
  have h2 := studentCourseworkRepository.SetGrade_found _ now id g f _ hr1 hg
  have hr2 := studentCourseworkRepository.GetByID_update _ id _
    (fun r => { r with Grade := some g, Feedback := f, UpdatedAt := now })
    (fun _ => ⟨rfl, rfl⟩) hr1
  refine ⟨_, _, ?_, hr2, rfl, rfl, rfl, rfl, rfl, rfl, rfl⟩
  unfold GradeCoursework
  simp only [noFault, h1, h2]

theorem grade_success_witness :
    ∃ db1 r1, GradeCoursework enrolledDB 9 noFault 1 4 "good" = (.ok (), db1) ∧
      studentCourseworkRepository.GetByID db1 none 1 = .ok r1 ∧
      r1.Status = StatusReviewed ∧ r1.Grade = some 4 ∧ r1.Feedback = "good" ∧
      r1.StudentID = sampleAssignment.StudentID ∧
      r1.CourseworkID = sampleAssignment.CourseworkID ∧
      r1.SubmittedAt = sampleAssignment.SubmittedAt ∧
      r1.CompletedAt = sampleAssignment.CompletedAt :=
  grade_success enrolledDB 9 1 4 "good" sampleAssignment (by decide) (by decide)

/-! ## Lemmas on the timestamp writes and on unmatched updates -/

theorem update_no_match (db : DB) (id : Nat) (assign : StudentCoursework → StudentCoursework)
    (hmiss : AssignmentMissing db id) : updateStudentCourseworkByID db id assign = (db, 0) := by
  have hp : ∀ r ∈ db.studentCourseworks, ¬ ((StudentCourseworkLive r && r.ID == id) = true) := by
    intro r hr
    simp only [Bool.and_eq_true, beq_iff_eq, not_and]
    exact hmiss r hr
  unfold updateStudentCourseworkByID
  have hmap : db.studentCourseworks.map
      (fun r => if (StudentCourseworkLive r && r.ID == id) = true then assign r else r) =
      db.studentCourseworks := by
    conv_rhs => rw [← List.map_id db.studentCourseworks]
    apply List.map_congr_left
    intro r hr
    rw [if_neg (hp r hr)]
    rfl
  have hcount : db.studentCourseworks.countP
      (fun r => StudentCourseworkLive r && r.ID == id) = 0 :=
    List.countP_eq_zero.2 hp
  simp only [hmap, hcount]

namespace studentCourseworkRepository

theorem UpdateStatus_missing (db : DB) (now : Time) (id : Nat) (status : CourseworkStatus)
    (hv : IsCourseworkStatus status) (hmiss : AssignmentMissing db id) :
    UpdateStatus db none now id status =
      (.error (if id = 0 then .invalidID else .assignmentNotFound id), db) := by
  unfold UpdateStatus
  by_cases hid : id = 0
  · simp only [hid, if_true]
  · unfold IsCourseworkStatus at hv
    rw [if_neg hid, if_neg (not_not.2 hv), if_neg hid]
    simp only [update_no_match db id _ hmiss, if_true]

theorem SetSubmitted_found (db : DB) (now : Time) (id : Nat) (submittedAt : Time)
    (r : StudentCoursework) (h : GetByID db none id = .ok r) :
    SetSubmitted db none now id submittedAt =
      (.ok (), (updateStudentCourseworkByID db id
        (fun r => { r with Status := StatusSubmitted, SubmittedAt := some submittedAt,
                           UpdatedAt := now })).1) := by
  have hid := (GetByID_ok db none id r h).1
  have hne := affected_ne_zero_of_GetByID db none id r
    (fun r => { r with Status := StatusSubmitted, SubmittedAt := some submittedAt,
                       UpdatedAt := now }) h
  unfold SetSubmitted
  rw [if_neg hid]
  dsimp only
  rw [if_neg hne]

theorem SetCompleted_found (db : DB) (now : Time) (id : Nat) (completedAt : Time)
    (r : StudentCoursework) (h : GetByID db none id = .ok r) :
    SetCompleted db none now id completedAt =
      (.ok (), (updateStudentCourseworkByID db id
        (fun r => { r with Status := StatusCompleted, CompletedAt := some completedAt,
                           UpdatedAt := now })).1) := by
  have hid := (GetByID_ok db none id r h).1
  have hne := affected_ne_zero_of_GetByID db none id r
    (fun r => { r with Status := StatusCompleted, CompletedAt := some completedAt,
                       UpdatedAt := now }) h
  unfold SetCompleted
  rw [if_neg hid]
  dsimp only
  rw [if_neg hne]

end studentCourseworkRepository

/-! ## Status transitions -/

/-- C11 (submit): for a live assignment row `r` found under the id, whatever
its current status, `SubmitCoursework` (no statement failing) succeeds;
afterwards the row found under the id has status `submitted` and
`SubmittedAt = now`, and the `Grade`, `Feedback`, `CompletedAt`, `StudentID`
and `CourseworkID` of `r`. -/
theorem submit_success (db : DB) (now : Time) (id : Nat) (r : StudentCoursework)
    (hr : studentCourseworkRepository.GetByID db none id = .ok r) :
    ∃ db1 r1, SubmitCoursework db now noFault id = (.ok (), db1) ∧
      studentCourseworkRepository.GetByID db1 none id = .ok r1 ∧
      r1.Status = StatusSubmitted ∧ r1.SubmittedAt = some now ∧
      r1.Grade = r.Grade ∧ r1.Feedback = r.Feedback ∧ r1.CompletedAt = r.CompletedAt ∧
      r1.StudentID = r.StudentID ∧ r1.CourseworkID = r.CourseworkID := by
  have h1 := studentCourseworkRepository.UpdateStatus_found db now id StatusSubmitted r hr
    (by simp)
  have hr1 := studentCourseworkRepository.GetByID_update db id r
    (fun r => { r with Status := StatusSubmitted, UpdatedAt := now }) (fun _ => ⟨rfl, rfl⟩) hr
  have h2 := studentCourseworkRepository.SetSubmitted_found _ now id now _ hr1
  have hr2 := studentCourseworkRepository.GetByID_update _ id _
    (fun r => { r with Status := StatusSubmitted, SubmittedAt := some now, UpdatedAt := now })
    (fun _ => ⟨rfl, rfl⟩) hr1
  refine ⟨_, _, ?_, hr2, rfl, rfl, rfl, rfl, rfl, rfl, rfl⟩
  unfold SubmitCoursework
  simp only [noFault, h1, h2]

theorem submit_success_witness :
    ∃ db1 r1, SubmitCoursework enrolledDB 8 noFault 1 = (.ok (), db1) ∧
      studentCourseworkRepository.GetByID db1 none 1 = .ok r1 ∧
      r1.Status = StatusSubmitted ∧ r1.SubmittedAt = some 8 ∧
      r1.Grade = sampleAssignment.Grade ∧ r1.Feedback = sampleAssignment.Feedback ∧
      r1.CompletedAt = sampleAssignment.CompletedAt ∧
      r1.StudentID = sampleAssignment.StudentID ∧
      r1.CourseworkID = sampleAssignment.CourseworkID :=
  submit_success enrolledDB 8 1 sampleAssignment (by decide)

/-- C12 (complete): for a live assignment row `r` found under the id,
`CompleteCoursework` (no statement failing) succeeds; afterwards the row found
under the id has status `completed` and `CompletedAt = now`, and the `Grade`,
`Feedback`, `SubmittedAt`, `StudentID` and `CourseworkID` of `r`. -/
theorem complete_success (db : DB) (now : Time) (id : Nat) (r : StudentCoursework)
    (hr : studentCourseworkRepository.GetByID db none id = .ok r) :
    ∃ db1 r1, CompleteCoursework db now noFault id = (.ok (), db1) ∧
      studentCourseworkRepository.GetByID db1 none id = .ok r1 ∧
      r1.Status = StatusCompleted ∧ r1.CompletedAt = some now ∧
      r1.Grade = r.Grade ∧ r1.Feedback = r.Feedback ∧ r1.SubmittedAt = r.SubmittedAt ∧
      r1.StudentID = r.StudentID ∧ r1.CourseworkID = r.CourseworkID := by
  have h1 := studentCourseworkRepository.UpdateStatus_found db now id StatusCompleted r hr
    (by simp)
  have hr1 := studentCourseworkRepository.GetByID_update db id r
    (fun r => { r with Status := StatusCompleted, UpdatedAt := now }) (fun _ => ⟨rfl, rfl⟩) hr
  have h2 := studentCourseworkRepository.SetCompleted_found _ now id now _ hr1
  have hr2 := studentCourseworkRepository.GetByID_update _ id _
    (fun r => { r with Status := StatusCompleted, CompletedAt := some now, UpdatedAt := now })
    (fun _ => ⟨rfl, rfl⟩) hr1
  refine ⟨_, _, ?_, hr2, rfl, rfl, rfl, rfl, rfl, rfl, rfl⟩
  unfold CompleteCoursework
  simp only [noFault, h1, h2]

theorem complete_success_witness :
    ∃ db1 r1, CompleteCoursework enrolledDB 8 noFault 1 = (.ok (), db1) ∧
      studentCourseworkRepository.GetByID db1 none 1 = .ok r1 ∧
      r1.Status = StatusCompleted ∧ r1.CompletedAt = some 8 ∧
      r1.Grade = sampleAssignment.Grade ∧ r1.Feedback = sampleAssignment.Feedback ∧
      r1.SubmittedAt = sampleAssignment.SubmittedAt ∧
      r1.StudentID = sampleAssignment.StudentID ∧
      r1.CourseworkID = sampleAssignment.CourseworkID :=
  complete_success enrolledDB 8 1 sampleAssignment (by decide)

/-- C13 as stated fails at assignment id 0: it matches no live row, and each of
the three transitions is rejected with "invalid ID", which is not the
not-found error. -/
theorem zero_assignment_id_rejected_as_invalid :
    AssignmentMissing enrolledDB 0 ∧
    SubmitCoursework enrolledDB 8 noFault 0 = (.error .invalidID, enrolledDB) ∧
    GradeCoursework enrolledDB 8 noFault 0 4 "good" = (.error .invalidID, enrolledDB) ∧
    CompleteCoursework enrolledDB 8 noFault 0 = (.error .invalidID, enrolledDB) ∧
    (SubmitCoursework enrolledDB 8 noFault 0).1 ≠ .error (.assignmentNotFound 0) := by
  decide

/-- C13, amended: for an assignment id under which no live row is stored, each
of `SubmitCoursework`, `GradeCoursework` (with any grade) and
`CompleteCoursework` (no statement failing) fails and leaves the database as it
was; the error is "student coursework with ID %d not found" when the id is
non-zero and "invalid ID" when the id is 0. -/
theorem transitions_missing_assignment (db : DB) (now : Time) (id : Nat) (g : Int)
    (f : String) (hmiss : AssignmentMissing db id) :
    SubmitCoursework db now noFault id =
      (.error (if id = 0 then .invalidID else .assignmentNotFound id), db) ∧
    GradeCoursework db now noFault id g f =
      (.error (if id = 0 then .invalidID else .assignmentNotFound id), db) ∧
    CompleteCoursework db now noFault id =
      (.error (if id = 0 then .invalidID else .assignmentNotFound id), db) := by
  refine ⟨?_, ?_, ?_⟩
  · unfold SubmitCoursework
    simp only [noFault, studentCourseworkRepository.UpdateStatus_missing db now id
      StatusSubmitted (by simp [IsCourseworkStatus]) hmiss]
  · unfold GradeCoursework
    simp only [noFault, studentCourseworkRepository.UpdateStatus_missing db now id
      StatusReviewed (by simp [IsCourseworkStatus]) hmiss]
  · unfold CompleteCoursework
    simp only [noFault, studentCourseworkRepository.UpdateStatus_missing db now id
      StatusCompleted (by simp [IsCourseworkStatus]) hmiss]

theorem transitions_missing_assignment_witness :
    SubmitCoursework enrolledDB 8 noFault 5 = (.error (.assignmentNotFound 5), enrolledDB) ∧
    GradeCoursework enrolledDB 8 noFault 5 4 "good" =
      (.error (.assignmentNotFound 5), enrolledDB) ∧
    CompleteCoursework enrolledDB 8 noFault 5 = (.error (.assignmentNotFound 5), enrolledDB) :=
  transitions_missing_assignment enrolledDB 8 5 4 "good" (by decide)

theorem eq_of_countP_eq_one {α : Type} (p : α → Bool) (l : List α) (h : l.countP p = 1)
    (x y : α) (hx : x ∈ l) (hy : y ∈ l) (px : p x = true) (py : p y = true) : x = y := by
  induction l with
  | nil => cases hx
  | cons a t ih =>
    rw [List.countP_cons] at h
    by_cases pa : p a = true
    · rw [if_pos pa] at h
      have h0 : t.countP p = 0 := by omega
      rw [List.countP_eq_zero] at h0
      have hxa : x = a := by
        rcases List.mem_cons.1 hx with h1 | h1
        · exact h1
        · exact absurd px (h0 x h1)
      have hya : y = a := by
        rcases List.mem_cons.1 hy with h1 | h1
        · exact h1
        · exact absurd py (h0 y h1)
      rw [hxa, hya]
    · rw [if_neg pa] at h
      have hxt : x ∈ t := by
        rcases List.mem_cons.1 hx with h1 | h1
        · exact absurd (h1 ▸ px) pa
        · exact h1
      have hyt : y ∈ t := by
        rcases List.mem_cons.1 hy with h1 | h1
        · exact absurd (h1 ▸ py) pa
        · exact h1
      exact ih (by omega) hxt hyt

theorem hasLive_of_assignmentCount_eq_one (db : DB) (sid : Nat)
    (h : assignmentCount db sid = 1) : HasLiveAssignment db sid := by
  by_contra hn
  rw [(assignmentCount_eq_zero_iff db sid).2 hn] at h
  cases h

namespace studentCourseworkRepository

theorem Delete_of_live_member (db : DB) (now : Time) (r0 : StudentCoursework)
    (hm : r0 ∈ db.studentCourseworks) (hl : StudentCourseworkLive r0 = true)
    (hid : r0.ID ≠ 0) :
    Delete db none now r0.ID =
      (.ok (), (updateStudentCourseworkByID db r0.ID
        (fun r => { r with DeletedAt := some now })).1) := by
  have hne : (updateStudentCourseworkByID db r0.ID
      (fun r => { r with DeletedAt := some now })).2 ≠ 0 := by
    unfold updateStudentCourseworkByID
    intro hz
    rw [List.countP_eq_zero] at hz
    exact hz r0 hm (by simp [hl])
  unfold Delete
  rw [if_neg hid]
  dsimp only
  rw [if_neg hne]

end studentCourseworkRepository

namespace StudentCourseworkManagerImpl

/-- Unassignment of a student whose by-student lookup finds a row with a
non-zero key: the row found is soft-deleted. -/
theorem UnassignStudentFromCoursework_found (db : DB) (now : Time) (sid : Nat)
    (hs : sid ≠ 0) (hl : HasLiveAssignment db sid)
    (hk : ∀ r ∈ db.studentCourseworks, r.ID ≠ 0) :
    ∃ r0, r0 ∈ db.studentCourseworks ∧ StudentCourseworkLive r0 = true ∧
      r0.StudentID = sid ∧
      UnassignStudentFromCoursework db now noFault sid =
        (.ok (), (updateStudentCourseworkByID db r0.ID
          (fun r => { r with DeletedAt := some now })).1) := by
  obtain ⟨r0, hr0⟩ := studentCourseworkRepository.GetByStudent_ok_of_live db sid hs hl
  obtain ⟨hm, hlive, hsid, _⟩ :=
    studentCourseworkRepository.GetByStudent_ok_live db none sid r0 hr0
  refine ⟨r0, hm, hlive, hsid, ?_⟩
  unfold UnassignStudentFromCoursework
  simp only [noFault, hr0]
  exact studentCourseworkRepository.Delete_of_live_member db now r0 hm hlive (hk r0 hm)

/-- After the soft delete of the only live row of a student, the student has
no live row. -/
theorem not_live_after_delete (db : DB) (now : Time) (sid : Nat) (r0 : StudentCoursework)
    (hone : assignmentCount db sid = 1) (hm : r0 ∈ db.studentCourseworks)
    (hlive : StudentCourseworkLive r0 = true) (hsid : r0.StudentID = sid) :
    ¬ HasLiveAssignment (updateStudentCourseworkByID db r0.ID
      (fun r => { r with DeletedAt := some now })).1 sid := by
  rintro ⟨y, hy, hyl, hys⟩
  unfold updateStudentCourseworkByID at hy
  simp only [List.mem_map] at hy
  obtain ⟨x, hx, rfl⟩ := hy
  by_cases hmatch : (StudentCourseworkLive x && x.ID == r0.ID) = true
  · rw [if_pos hmatch] at hyl
    simp [StudentCourseworkLive] at hyl
  · rw [if_neg hmatch] at hyl hys
    have hxr : x = r0 := eq_of_countP_eq_one _ _ hone x r0 hx hm
      (by simp [hyl, hys]) (by simp [hlive, hsid])
    apply hmatch
    rw [hxr]
    simp [hlive]

end StudentCourseworkManagerImpl

/-! ## Unassignment -/

/-- C15 as stated fails at two inputs.  A student holding two live rows (the
state two racing enrollments leave behind) is unassigned with success and
still has a live row afterwards; and for student id 0, which has no live row,
the call fails with "invalid student ID", which is not the not-found error. -/
theorem unassign_leaves_second_row_and_rejects_zero_id :
    (HasLiveAssignment doublyEnrolledDB 7 ∧
      (UnassignStudentFromCoursework doublyEnrolledDB 9 noFault 7).1 = .ok () ∧
      HasLiveAssignment (UnassignStudentFromCoursework doublyEnrolledDB 9 noFault 7).2 7) ∧
    (¬ HasLiveAssignment enrolledDB 0 ∧
      UnassignStudentFromCoursework enrolledDB 9 noFault 0 =
        (.error .invalidStudentID, enrolledDB) ∧
      (UnassignStudentFromCoursework enrolledDB 9 noFault 0).1 ≠
        .error (.noCourseworkForStudent 0)) := by
  decide

/-- C15, amended: for a non-zero student id, in a database whose assignment
keys are non-zero and unique: if the student has exactly one live row then
`UnassignStudentFromCoursework` (no statement failing) succeeds, afterwards the
student has no live row, and the table is the old one with that row
soft-deleted and every other row as it was; if the student has no live row the
call fails with "no coursework found for student %d" and the database is as
it was. -/
theorem unassign_single_assignment (db : DB) (now : Time) (sid : Nat) (hs : sid ≠ 0)
    (hk : AssignmentKeysValid db) :
    (assignmentCount db sid = 1 → ∃ db1,
      UnassignStudentFromCoursework db now noFault sid = (.ok (), db1) ∧
      ¬ HasLiveAssignment db1 sid ∧ db1.courseworks = db.courseworks ∧
      db1.studentCourseworks = db.studentCourseworks.map
        (fun r => if StudentCourseworkLive r = true ∧ r.StudentID = sid
          then { r with DeletedAt := some now } else r)) ∧
    (¬ HasLiveAssignment db sid →
      UnassignStudentFromCoursework db now noFault sid =
        (.error (.noCourseworkForStudent sid), db)) := by
  constructor
  · intro hone
    obtain ⟨r0, hm, hlive, hsid, hun⟩ :=
      UnassignStudentFromCoursework_found db now sid hs
        (hasLive_of_assignmentCount_eq_one db sid hone) hk.1
    refine ⟨_, hun, not_live_after_delete db now sid r0 hone hm hlive hsid, rfl, ?_⟩
    unfold updateStudentCourseworkByID
    dsimp only
    apply List.map_congr_left
    intro x hx
    by_cases hx1 : StudentCourseworkLive x = true ∧ x.StudentID = sid
    · have hxr : x = r0 := eq_of_countP_eq_one _ _ hone x r0 hx hm
        (by simp [hx1.1, hx1.2]) (by simp [hlive, hsid])
      rw [if_pos hx1, if_pos (by simp [hxr, hlive])]
    · rw [if_neg hx1, if_neg]
      simp only [Bool.and_eq_true, beq_iff_eq, not_and]
      intro hxl hxid
      have hxr : x = r0 := List.inj_on_of_nodup_map hk.2 hx hm hxid
      exact hx1 ⟨hxl, hxr ▸ hsid⟩
  · intro hfree
    unfold UnassignStudentFromCoursework studentCourseworkRepository.GetByStudent
    have hnone : db.studentCourseworks.find?
        (fun r => StudentCourseworkLive r && r.StudentID == sid) = none := by
      rw [find?_eq_none_iff_countP]
      exact (assignmentCount_eq_zero_iff db sid).2 hfree
    simp only [noFault, if_neg hs, hnone]

theorem unassign_single_assignment_witness :
    (∃ db1, UnassignStudentFromCoursework enrolledDB 9 noFault 7 = (.ok (), db1) ∧
      ¬ HasLiveAssignment db1 7 ∧ db1.courseworks = enrolledDB.courseworks ∧
      db1.studentCourseworks = enrolledDB.studentCourseworks.map
        (fun r => if StudentCourseworkLive r = true ∧ r.StudentID = 7
          then { r with DeletedAt := some 9 } else r)) ∧
    UnassignStudentFromCoursework enrolledDB 9 noFault 8 =
      (.error (.noCourseworkForStudent 8), enrolledDB) :=
  ⟨(unassign_single_assignment enrolledDB 9 7 (by decide) (by decide)).1 (by decide),
   (unassign_single_assignment enrolledDB 9 8 (by decide) (by decide)).2 (by decide)⟩

namespace studentCourseworkRepository

theorem GetByStudent_append_of_not_live (db : DB) (row : StudentCoursework) (sid : Nat)
    (hs : sid ≠ 0) (hfree : ¬ HasLiveAssignment db sid) (hl : row.DeletedAt = none)
    (hr : row.StudentID = sid) :
    GetByStudent { db with studentCourseworks := db.studentCourseworks ++ [row] } none sid =
      .ok row := by
  have hnone : db.studentCourseworks.find?
      (fun r => StudentCourseworkLive r && r.StudentID == sid) = none := by
    rw [find?_eq_none_iff_countP]
    exact (assignmentCount_eq_zero_iff db sid).2 hfree
  have hrow : (StudentCourseworkLive row && row.StudentID == sid) = true := by
    simp [StudentCourseworkLive, hl, hr]
  unfold GetByStudent
  rw [if_neg hs]
  dsimp only
  rw [List.find?_append, hnone, List.find?_cons, hrow]
  rfl

end studentCourseworkRepository

/-- C16 (P5, unassign then reassign): for a non-zero student id with exactly
one live row, in a database whose assignment keys are non-zero and unique, and
a coursework that `GetByID` finds and whose live-row count is below its
`MaxStudents` (in particular one different from the coursework the student is
enrolled in), `UnassignStudentFromCoursework` followed by
`AssignStudentToCoursework` (no statement failing) both succeed; the student
ends with exactly one live row, the new record, which references the
coursework and has status `assigned`. -/
theorem unassign_then_reassign (db : DB) (now1 now2 : Time) (sid cid : Nat) (cw : Coursework)
    (hs : sid ≠ 0) (hk : AssignmentKeysValid db) (hone : assignmentCount db sid = 1)
    (hcw : courseworkRepository.GetByID db none cid = .ok cw)
    (hcap : (enrollmentCount db cid : Int) < cw.MaxStudents) :
    ∃ db1 row db2, UnassignStudentFromCoursework db now1 noFault sid = (.ok (), db1) ∧
      AssignStudentToCoursework db1 now2 noFault sid cid = (.ok row, db2) ∧
      assignmentCount db2 sid = 1 ∧
      studentCourseworkRepository.GetByStudent db2 none sid = .ok row ∧
      row.StudentID = sid ∧ row.CourseworkID = cid ∧ row.Status = StatusAssigned := by
  obtain ⟨r0, hm, hlive, hsid, hun⟩ :=
    UnassignStudentFromCoursework_found db now1 sid hs
      (hasLive_of_assignmentCount_eq_one db sid hone) hk.1
  have hfree := not_live_after_delete db now1 sid r0 hone hm hlive hsid
  have hrw := UnassignStudentFromCoursework_rewrites db now1 noFault sid
  rw [hun] at hrw
  dsimp only at hrw
  have hcw1 : courseworkRepository.GetByID (updateStudentCourseworkByID db r0.ID
      (fun r => { r with DeletedAt := some now1 })).1 none cid = .ok cw := hcw
  have hcap1 : (enrollmentCount (updateStudentCourseworkByID db r0.ID
      (fun r => { r with DeletedAt := some now1 })).1 cid : Int) < cw.MaxStudents := by
    have := enrollmentCount_le_of_rewrites hrw cid
    omega
  have hassign := AssignStudentToCoursework_free _ now2 sid cid cw hs hfree hcw1 hcap1
  refine ⟨_, _, _, hun, hassign, ?_, ?_, rfl, rfl, rfl⟩
  · rw [assignmentCount_append, (assignmentCount_eq_zero_iff _ sid).2 hfree]
    simp [StudentCourseworkLive]
  · exact studentCourseworkRepository.GetByStudent_append_of_not_live _ _ sid hs hfree rfl rfl

theorem unassign_then_reassign_witness :
    ∃ db1 row db2, UnassignStudentFromCoursework enrolledDB 9 noFault 7 = (.ok (), db1) ∧
      AssignStudentToCoursework db1 10 noFault 7 2 = (.ok row, db2) ∧
      assignmentCount db2 7 = 1 ∧
      studentCourseworkRepository.GetByStudent db2 none 7 = .ok row ∧
      row.StudentID = 7 ∧ row.CourseworkID = 2 ∧ row.Status = StatusAssigned :=
  unassign_then_reassign enrolledDB 9 10 7 2 sampleCourseworkTwo (by decide) (by decide)
    (by decide) (by decide) (by decide)

/-! ## Lemmas on the progress report -/

namespace StudentCourseworkManagerImpl

/-- One turn of the loop: the counter of the status of the row goes up by one,
a row in another status moves no counter, and one summary is appended. -/
theorem progressLoopBody_spec (rep : CourseworkProgressReport) (r : StudentCoursework) :
    (progressLoopBody rep r).CourseworkID = rep.CourseworkID ∧
    (progressLoopBody rep r).CourseworkTitle = rep.CourseworkTitle ∧
    (progressLoopBody rep r).TotalStudents = rep.TotalStudents ∧
    (progressLoopBody rep r).AssignedStudents =
      rep.AssignedStudents + (if r.Status = StatusAssigned then 1 else 0) ∧
    (progressLoopBody rep r).InProgressCount =
      rep.InProgressCount + (if r.Status = StatusInProgress then 1 else 0) ∧
    (progressLoopBody rep r).SubmittedCount =
      rep.SubmittedCount + (if r.Status = StatusSubmitted then 1 else 0) ∧
    (progressLoopBody rep r).CompletedCount =
      rep.CompletedCount + (if r.Status = StatusCompleted then 1 else 0) ∧
    (progressLoopBody rep r).FailedCount =
      rep.FailedCount + (if r.Status = StatusFailed then 1 else 0) ∧
    (progressLoopBody rep r).Students = rep.Students ++
      [{ StudentID := r.StudentID, StudentName := r.Student.GetFullName, Status := r.Status,
         AssignedAt := r.CreatedAt, SubmittedAt := r.SubmittedAt,
         CompletedAt := r.CompletedAt, Grade := r.Grade }] := by
  have d1 : StatusAssigned ≠ StatusInProgress := by decide
  have d2 : StatusAssigned ≠ StatusSubmitted := by decide
  have d3 : StatusAssigned ≠ StatusCompleted := by decide
  have d4 : StatusAssigned ≠ StatusFailed := by decide
  have d5 : StatusInProgress ≠ StatusSubmitted := by decide
  have d6 : StatusInProgress ≠ StatusCompleted := by decide
  have d7 : StatusInProgress ≠ StatusFailed := by decide
  have d8 : StatusSubmitted ≠ StatusCompleted := by decide
  have d9 : StatusSubmitted ≠ StatusFailed := by decide
  have d10 : StatusCompleted ≠ StatusFailed := by decide
  unfold progressLoopBody
  by_cases h1 : r.Status = StatusAssigned
  · simp [h1, d1, d2, d3, d4]
  · by_cases h2 : r.Status = StatusInProgress
    · simp [h2, d1.symm, d5, d6, d7]
    · by_cases h3 : r.Status = StatusSubmitted
      · simp [h3, d2.symm, d5.symm, d8, d9]
      · by_cases h4 : r.Status = StatusCompleted
        · simp [h4, d3.symm, d6.symm, d8.symm, d10]
        · by_cases h5 : r.Status = StatusFailed
          · simp [h5, d4.symm, d7.symm, d9.symm, d10.symm]
          · simp [h1, h2, h3, h4, h5]

/-- The loop over the records: each counter is raised by the number of records
in its status, and one summary per record is appended in order. -/
theorem foldl_progressLoopBody (records : List StudentCoursework)
    (rep : CourseworkProgressReport) :
    (records.foldl progressLoopBody rep).CourseworkID = rep.CourseworkID ∧
    (records.foldl progressLoopBody rep).CourseworkTitle = rep.CourseworkTitle ∧
    (records.foldl progressLoopBody rep).TotalStudents = rep.TotalStudents ∧
    (records.foldl progressLoopBody rep).AssignedStudents =
      rep.AssignedStudents + (records.countP (fun r => r.Status == StatusAssigned) : Nat) ∧
    (records.foldl progressLoopBody rep).InProgressCount =
      rep.InProgressCount + (records.countP (fun r => r.Status == StatusInProgress) : Nat) ∧
    (records.foldl progressLoopBody rep).SubmittedCount =
      rep.SubmittedCount + (records.countP (fun r => r.Status == StatusSubmitted) : Nat) ∧
    (records.foldl progressLoopBody rep).CompletedCount =
      rep.CompletedCount + (records.countP (fun r => r.Status == StatusCompleted) : Nat) ∧
    (records.foldl progressLoopBody rep).FailedCount =
      rep.FailedCount + (records.countP (fun r => r.Status == StatusFailed) : Nat) ∧
    (records.foldl progressLoopBody rep).Students = rep.Students ++ records.map
      (fun r => { StudentID := r.StudentID, StudentName := r.Student.GetFullName,
                  Status := r.Status, AssignedAt := r.CreatedAt, SubmittedAt := r.SubmittedAt,
                  CompletedAt := r.CompletedAt, Grade := r.Grade }) := by
  induction records generalizing rep with
  | nil => simp
  | cons r t ih =>
    obtain ⟨a1, a2, a3, a4, a5, a6, a7, a8, a9⟩ := progressLoopBody_spec rep r
    obtain ⟨b1, b2, b3, b4, b5, b6, b7, b8, b9⟩ := ih (progressLoopBody rep r)
    simp only [List.foldl_cons, List.countP_cons, List.map_cons, beq_iff_eq]
    refine ⟨b1.trans a1, b2.trans a2, b3.trans a3, ?_, ?_, ?_, ?_, ?_, ?_⟩
    · rw [b4, a4]
      by_cases hst : r.Status = StatusAssigned
      · simp [hst]; omega
      · simp [hst]
    · rw [b5, a5]
      by_cases hst : r.Status = StatusInProgress
      · simp [hst]; omega
      · simp [hst]
    · rw [b6, a6]
      by_cases hst : r.Status = StatusSubmitted
      · simp [hst]; omega
      · simp [hst]
    · rw [b7, a7]
      by_cases hst : r.Status = StatusCompleted
      · simp [hst]; omega
      · simp [hst]
    · rw [b8, a8]
      by_cases hst : r.Status = StatusFailed
      · simp [hst]; omega
      · simp [hst]
    · rw [b9, a9]; simp

end StudentCourseworkManagerImpl

namespace studentCourseworkRepository

theorem GetByCoursework_ok (db : DB) (fault : Option String) (cid : Nat)
    (records : List StudentCoursework) (h : GetByCoursework db fault cid = .ok records) :
    GetByCoursework db none cid = .ok records := by
  unfold GetByCoursework at h ⊢
  split at h
  · cases h
  · rename_i hc
    rw [if_neg hc]
    split at h
    · cases h
    · exact h

end studentCourseworkRepository

/-! ## Progress report -/

/-- C17 (progress report): when the by-coursework query returns the records,
`GetCourseworkProgress` returns a report whose `TotalStudents` is the number
of records, whose `AssignedStudents`, `InProgressCount`, `SubmittedCount`,
`CompletedCount` and `FailedCount` are the numbers of records with status
`assigned`, `in_progress`, `submitted`, `completed` and `failed`, and whose
`Students` holds one summary per record, in the same order, with the
`StudentID`, `Status`, `CreatedAt` (as `AssignedAt`), `SubmittedAt`,
`CompletedAt` and `Grade` of the record and the name made of the first name,
a blank and the last name of its student. -/
theorem progress_report (db : DB) (faults : Nat → Option String) (cid : Nat)
    (records : List StudentCoursework)
    (hrec : studentCourseworkRepository.GetByCoursework db (faults 0) cid = .ok records) :
    ∃ report, GetCourseworkProgress db faults cid = (.ok report, db) ∧
      report.CourseworkID = cid ∧
      report.TotalStudents = (records.length : Int) ∧
      report.AssignedStudents =
        ((records.countP (fun r => r.Status == StatusAssigned) : Nat) : Int) ∧
      report.InProgressCount =
        ((records.countP (fun r => r.Status == StatusInProgress) : Nat) : Int) ∧
      report.SubmittedCount =
        ((records.countP (fun r => r.Status == StatusSubmitted) : Nat) : Int) ∧
      report.CompletedCount =
        ((records.countP (fun r => r.Status == StatusCompleted) : Nat) : Int) ∧
      report.FailedCount =
        ((records.countP (fun r => r.Status == StatusFailed) : Nat) : Int) ∧
      report.Students = records.map
        (fun r => { StudentID := r.StudentID,
                    StudentName := r.Student.FirstName ++ " " ++ r.Student.LastName,
                    Status := r.Status, AssignedAt := r.CreatedAt,
                    SubmittedAt := r.SubmittedAt, CompletedAt := r.CompletedAt,
                    Grade := r.Grade }) := by
  obtain ⟨a1, _, a3, a4, a5, a6, a7, a8, a9⟩ := foldl_progressLoopBody records
    { CourseworkID := cid, CourseworkTitle := "", TotalStudents := (records.length : Int),
      AssignedStudents := 0, InProgressCount := 0, SubmittedCount := 0, CompletedCount := 0,
      FailedCount := 0, Students := [] }
  refine ⟨_, ?_, a1, a3, ?_, ?_, ?_, ?_, ?_, ?_⟩
  · unfold GetCourseworkProgress
    rw [hrec]
  · rw [a4]; simp
  · rw [a5]; simp
  · rw [a6]; simp
  · rw [a7]; simp
  · rw [a8]; simp
  · rw [a9]; simp [User.GetFullName]

theorem progress_report_witness :
    ∃ report, GetCourseworkProgress progressDB noFault 3 = (.ok report, progressDB) ∧
      report.TotalStudents = 3 ∧ report.AssignedStudents = 1 ∧ report.InProgressCount = 0 ∧
      report.SubmittedCount = 1 ∧ report.CompletedCount = 1 ∧ report.FailedCount = 0 ∧
      report.Students.length = 3 ∧
      report.Students.map (fun s => s.StudentName) =
        ["Ada Lovelace", "Alan Turing", "Grace Hopper"] := by
  obtain ⟨report, h, _, h0, h1, h2, h3, h4, h5, h6⟩ :=
    progress_report progressDB noFault 3 _ rfl
  refine ⟨report, h, ?_, ?_, ?_, ?_, ?_, ?_, ?_, ?_⟩
  · rw [h0]; decide
  · rw [h1]; decide
  · rw [h2]; decide
  · rw [h3]; decide
  · rw [h4]; decide
  · rw [h5]; decide
  · rw [h6]; decide
  · rw [h6]; decide

/-- C18 (P4, read-only and deterministic report): `GetCourseworkProgress`
returns the database it was given, whatever the outcome of its query; and when
a call and the call that follows it on the resulting database both return a
report, the two reports are equal (the same `TotalStudents`, the same five
counters, the same `Students`). -/
theorem progress_read_only_deterministic (db : DB) (f1 f2 : Nat → Option String)
    (cid : Nat) :
    (GetCourseworkProgress db f1 cid).2 = db ∧
    (∀ r1 r2, (GetCourseworkProgress db f1 cid).1 = .ok r1 →
      (GetCourseworkProgress (GetCourseworkProgress db f1 cid).2 f2 cid).1 = .ok r2 →
      r1 = r2) := by
  have hdb : ∀ f, (GetCourseworkProgress db f cid).2 = db := by
    intro f
    unfold GetCourseworkProgress
    split <;> rfl
  have hres : ∀ f r, (GetCourseworkProgress db f cid).1 = .ok r →
      (GetCourseworkProgress db noFault cid).1 = .ok r := by
    intro f r h
    unfold GetCourseworkProgress at h ⊢
    split at h
    · cases h
    · rename_i records hrec
      have := studentCourseworkRepository.GetByCoursework_ok db (f 0) cid records hrec
      simp only [noFault, this]
      exact h
  refine ⟨hdb f1, ?_⟩
  intro r1 r2 h1 h2
  rw [hdb f1] at h2
  have e1 := hres f1 r1 h1
  have e2 := hres f2 r2 h2
  rw [e1] at e2
  cases e2
  rfl

theorem progress_read_only_deterministic_witness :
    (GetCourseworkProgress progressDB noFault 3).2 = progressDB ∧
    ∃ r1 r2, (GetCourseworkProgress progressDB noFault 3).1 = .ok r1 ∧
      (GetCourseworkProgress (GetCourseworkProgress progressDB noFault 3).2 noFault 3).1 =
        .ok r2 ∧ r1 = r2 := by
  have h := progress_read_only_deterministic progressDB noFault noFault 3
  obtain ⟨r1, h1⟩ : ∃ r, (GetCourseworkProgress progressDB noFault 3).1 = .ok r := ⟨_, rfl⟩
  obtain ⟨r2, h2⟩ : ∃ r, (GetCourseworkProgress
      (GetCourseworkProgress progressDB noFault 3).2 noFault 3).1 = .ok r := ⟨_, rfl⟩
  exact ⟨h.1, r1, r2, h1, h2, h.2 r1 r2 h1 h2⟩

/-! ## Lemmas on the lifecycle of one assignment -/

theorem foldl_max_ge_init (l : List Nat) (init : Nat) : init ≤ l.foldl max init := by
  induction l generalizing init with
  | nil => exact Nat.le_refl _
  | cons a t ih => exact Nat.le_trans (Nat.le_max_left init a) (ih (max init a))

theorem le_foldl_max (l : List Nat) (init x : Nat) (hx : x ∈ l) : x ≤ l.foldl max init := by
  induction l generalizing init with
  | nil => cases hx
  | cons a t ih =>
    rcases List.mem_cons.1 hx with h | h
    · rw [h]
      exact Nat.le_trans (Nat.le_max_right init a) (foldl_max_ge_init t (max init a))
    · exact ih (max init a) h

/-- The key handed out by `AUTOINCREMENT` is above every key of the table. -/
theorem lt_nextStudentCourseworkID (db : DB) (r : StudentCoursework)
    (hr : r ∈ db.studentCourseworks) : r.ID < nextStudentCourseworkID db := by
  unfold nextStudentCourseworkID
  exact Nat.lt_succ_of_le (le_foldl_max _ 0 r.ID (List.mem_map_of_mem _ hr))

namespace studentCourseworkRepository

/-- The row just inserted is the one found under its key. -/
theorem GetByID_inserted (db : DB) (row : StudentCoursework)
    (hid : row.ID = nextStudentCourseworkID db) (hl : row.DeletedAt = none) :
    GetByID { db with studentCourseworks := db.studentCourseworks ++ [row] } none row.ID =
      .ok row := by
  have hne : row.ID ≠ 0 := by
    rw [hid]
    unfold nextStudentCourseworkID
    exact Nat.succ_ne_zero _
  have hnone : db.studentCourseworks.find?
      (fun r => StudentCourseworkLive r && r.ID == row.ID) = none := by
    rw [List.find?_eq_none]
    intro x hx
    have := lt_nextStudentCourseworkID db x hx
    simp only [Bool.and_eq_true, beq_iff_eq, not_and]
    intro _ hxid
    omega
  have hrow : (StudentCourseworkLive row && row.ID == row.ID) = true := by
    simp [StudentCourseworkLive, hl]
  apply GetByID_of_find _ _ _ hne
  dsimp only
  rw [List.find?_append, hnone, List.find?_cons, hrow]
  rfl

end studentCourseworkRepository

namespace StudentCourseworkManagerImpl

open studentCourseworkRepository

theorem SubmitCoursework_found (db : DB) (now : Time) (id : Nat) (r : StudentCoursework)
    (hr : studentCourseworkRepository.GetByID db none id = .ok r) :
    ∃ db1, SubmitCoursework db now noFault id = (.ok (), db1) ∧
      studentCourseworkRepository.GetByID db1 none id =
        .ok { r with Status := StatusSubmitted, SubmittedAt := some now, UpdatedAt := now } := by
  have h1 := UpdateStatus_found db now id StatusSubmitted r hr (by simp)
  have hr1 := GetByID_update db id r
    (fun r => { r with Status := StatusSubmitted, UpdatedAt := now }) (fun _ => ⟨rfl, rfl⟩) hr
  have h2 := SetSubmitted_found _ now id now _ hr1
  have hr2 := GetByID_update _ id _
    (fun r => { r with Status := StatusSubmitted, SubmittedAt := some now, UpdatedAt := now })
    (fun _ => ⟨rfl, rfl⟩) hr1
  refine ⟨_, ?_, hr2⟩
  unfold SubmitCoursework
  simp only [noFault, h1, h2]

theorem GradeCoursework_found (db : DB) (now : Time) (id : Nat) (g : Int) (f : String)
    (r : StudentCoursework) (hr : studentCourseworkRepository.GetByID db none id = .ok r)
    (hg : 2 ≤ g ∧ g ≤ 5) :
    ∃ db1, GradeCoursework db now noFault id g f = (.ok (), db1) ∧
      studentCourseworkRepository.GetByID db1 none id =
        .ok { r with Status := StatusReviewed, Grade := some g, Feedback := f,
                     UpdatedAt := now } := by
  have h1 := UpdateStatus_found db now id StatusReviewed r hr (by simp)
  have hr1 := GetByID_update db id r
    (fun r => { r with Status := StatusReviewed, UpdatedAt := now }) (fun _ => ⟨rfl, rfl⟩) hr
  have h2 := SetGrade_found _ now id g f _ hr1 hg
  have hr2 := GetByID_update _ id _
    (fun r => { r with Grade := some g, Feedback := f, UpdatedAt := now })
    (fun _ => ⟨rfl, rfl⟩) hr1
  refine ⟨_, ?_, hr2⟩
  unfold GradeCoursework
  simp only [noFault, h1, h2]

theorem CompleteCoursework_found (db : DB) (now : Time) (id : Nat) (r : StudentCoursework)
    (hr : studentCourseworkRepository.GetByID db none id = .ok r) :
    ∃ db1, CompleteCoursework db now noFault id = (.ok (), db1) ∧
      studentCourseworkRepository.GetByID db1 none id =
        .ok { r with Status := StatusCompleted, CompletedAt := some now, UpdatedAt := now } := by
  have h1 := UpdateStatus_found db now id StatusCompleted r hr (by simp)
  have hr1 := GetByID_update db id r
    (fun r => { r with Status := StatusCompleted, UpdatedAt := now }) (fun _ => ⟨rfl, rfl⟩) hr
  have h2 := SetCompleted_found _ now id now _ hr1
  have hr2 := GetByID_update _ id _
    (fun r => { r with Status := StatusCompleted, CompletedAt := some now, UpdatedAt := now })
    (fun _ => ⟨rfl, rfl⟩) hr1
  refine ⟨_, ?_, hr2⟩
  unfold CompleteCoursework
  simp only [noFault, h1, h2]

end StudentCourseworkManagerImpl

/-! ## Scenario B: the full lifecycle -/

/-- C19 (scenario B, full lifecycle): for a non-zero student id with no live
row and a coursework that `GetByID` finds with a free slot, the calls
`AssignStudentToCoursework`, then `SubmitCoursework`, `GradeCoursework` with a
grade `g`, `2 ≤ g ≤ 5`, and feedback `f`, then `CompleteCoursework`, the last
three on the id of the created record, all succeed (no statement failing).
After the grade step the row has status `reviewed`, grade `g` and feedback
`f`; after the complete step it has status `completed` and `CompletedAt` set
to the time of that call, still with grade `g`, feedback `f` and the
`SubmittedAt` stamped by the submit step. -/
theorem full_lifecycle (db : DB) (t0 t1 t2 t3 : Time) (sid cid : Nat) (cw : Coursework)
    (g : Int) (f : String) (hs : sid ≠ 0) (hfree : ¬ HasLiveAssignment db sid)
    (hcw : courseworkRepository.GetByID db none cid = .ok cw)
    (hcap : (enrollmentCount db cid : Int) < cw.MaxStudents) (hg : 2 ≤ g ∧ g ≤ 5) :
    ∃ row db1 db2 db3 db4 r3 r4,
      AssignStudentToCoursework db t0 noFault sid cid = (.ok row, db1) ∧
      row.Status = StatusAssigned ∧
      SubmitCoursework db1 t1 noFault row.ID = (.ok (), db2) ∧
      GradeCoursework db2 t2 noFault row.ID g f = (.ok (), db3) ∧
      studentCourseworkRepository.GetByID db3 none row.ID = .ok r3 ∧
      r3.Status = StatusReviewed ∧ r3.Grade = some g ∧ r3.Feedback = f ∧
      CompleteCoursework db3 t3 noFault row.ID = (.ok (), db4) ∧
      studentCourseworkRepository.GetByID db4 none row.ID = .ok r4 ∧
      r4.Status = StatusCompleted ∧ r4.CompletedAt = some t3 ∧ r4.Grade = some g ∧
      r4.Feedback = f ∧ r4.SubmittedAt = some t1 ∧
      r4.StudentID = sid ∧ r4.CourseworkID = cid := by
  have h0 := AssignStudentToCoursework_free db t0 sid cid cw hs hfree hcw hcap
  have hrow := studentCourseworkRepository.GetByID_inserted db
    { ID := nextStudentCourseworkID db, CreatedAt := t0, UpdatedAt := t0, DeletedAt := none,
      StudentID := sid, CourseworkID := cid, Status := StatusAssigned, SubmittedAt := none,
      CompletedAt := none, Grade := none, Feedback := "" } rfl rfl
  obtain ⟨db2, hsub, hr2⟩ := SubmitCoursework_found _ t1 _ _ hrow
  obtain ⟨db3, hgr, hr3⟩ := GradeCoursework_found db2 t2 _ g f _ hr2 hg
  obtain ⟨db4, hco, hr4⟩ := CompleteCoursework_found db3 t3 _ _ hr3
  exact ⟨_, _, db2, db3, db4, _, _, h0, rfl, hsub, hgr, hr3, rfl, rfl, rfl, hco, hr4,
    rfl, rfl, rfl, rfl, rfl, rfl, rfl⟩

theorem full_lifecycle_witness :
    ∃ row db1 db2 db3 db4 r3 r4,
      AssignStudentToCoursework enrolledDB 6 noFault 8 2 = (.ok row, db1) ∧
      row.Status = StatusAssigned ∧
      SubmitCoursework db1 7 noFault row.ID = (.ok (), db2) ∧
      GradeCoursework db2 8 noFault row.ID 4 "good" = (.ok (), db3) ∧
      studentCourseworkRepository.GetByID db3 none row.ID = .ok r3 ∧
      r3.Status = StatusReviewed ∧ r3.Grade = some 4 ∧ r3.Feedback = "good" ∧
      CompleteCoursework db3 9 noFault row.ID = (.ok (), db4) ∧
      studentCourseworkRepository.GetByID db4 none row.ID = .ok r4 ∧
      r4.Status = StatusCompleted ∧ r4.CompletedAt = some 9 ∧ r4.Grade = some 4 ∧
      r4.Feedback = "good" ∧ r4.SubmittedAt = some 7 ∧
      r4.StudentID = 8 ∧ r4.CourseworkID = 2 :=
  full_lifecycle enrolledDB 6 7 8 9 8 2 sampleCourseworkTwo 4 "good" (by decide) (by decide)
    (by decide) (by decide) (by decide)

/-! ## Lemmas on the grade range -/

theorem update_gradesInRange (db : DB) (id : Nat)
    (assign : StudentCoursework → StudentCoursework)
    (ha : ∀ r, GradeInRange r → GradeInRange (assign r)) (h : GradesInRange db) :
    GradesInRange (updateStudentCourseworkByID db id assign).1 := by
  intro y hy
  unfold updateStudentCourseworkByID at hy
  simp only [List.mem_map] at hy
  obtain ⟨x, hx, rfl⟩ := hy
  split
  · exact ha x (h x hx)
  · exact h x hx

namespace studentCourseworkRepository

theorem Delete_gradesInRange (db : DB) (fault : Option String) (now : Time) (id : Nat)
    (h : GradesInRange db) : GradesInRange (Delete db fault now id).2 := by
  unfold Delete
  split
  · exact h
  · split
    · exact h
    · have := update_gradesInRange db id (fun r => { r with DeletedAt := some now })
        (fun _ hr => hr) h
      dsimp only
      split <;> exact this

theorem UpdateStatus_gradesInRange (db : DB) (fault : Option String) (now : Time) (id : Nat)
    (status : CourseworkStatus) (h : GradesInRange db) :
    GradesInRange (UpdateStatus db fault now id status).2 := by
  unfold UpdateStatus
  split
  · exact h
  · split
    · exact h
    · split
      · exact h
      · have := update_gradesInRange db id
          (fun r => { r with Status := status, UpdatedAt := now }) (fun _ hr => hr) h
        dsimp only
        split <;> exact this

theorem SetGrade_gradesInRange (db : DB) (fault : Option String) (now : Time) (id : Nat)
    (grade : Int) (feedback : String) (h : GradesInRange db) :
    GradesInRange (SetGrade db fault now id grade feedback).2 := by
  unfold SetGrade
  split
  · exact h
  · split
    · exact h
    · rename_i hg
      split
      · exact h
      · have := update_gradesInRange db id
          (fun r => { r with Grade := some grade, Feedback := feedback, UpdatedAt := now })
          (fun _ _ => by
            show 2 ≤ grade ∧ grade ≤ 5
            omega) h
        dsimp only
        split <;> exact this

theorem SetSubmitted_gradesInRange (db : DB) (fault : Option String) (now : Time) (id : Nat)
    (submittedAt : Time) (h : GradesInRange db) :
    GradesInRange (SetSubmitted db fault now id submittedAt).2 := by
  unfold SetSubmitted
  split
  · exact h
  · split
    · exact h
    · have := update_gradesInRange db id
        (fun r => { r with Status := StatusSubmitted, SubmittedAt := some submittedAt,
                           UpdatedAt := now }) (fun _ hr => hr) h
      dsimp only
      split <;> exact this

theorem SetCompleted_gradesInRange (db : DB) (fault : Option String) (now : Time) (id : Nat)
    (completedAt : Time) (h : GradesInRange db) :
    GradesInRange (SetCompleted db fault now id completedAt).2 := by
  unfold SetCompleted
  split
  · exact h
  · split
    · exact h
    · have := update_gradesInRange db id
        (fun r => { r with Status := StatusCompleted, CompletedAt := some completedAt,
                           UpdatedAt := now }) (fun _ hr => hr) h
      dsimp only
      split <;> exact this

end studentCourseworkRepository

open studentCourseworkRepository in
theorem step_gradesInRange (db : DB) (c : Call) (h : GradesInRange db) :
    GradesInRange (step db c) := by
  unfold step
  cases hop : c.op with
  | assign sid cid =>
    dsimp only
    cases hres : (AssignStudentToCoursework db c.now c.faults sid cid).1 with
    | error e =>
      rw [AssignStudentToCoursework_error_unchanged db c.now c.faults sid cid e hres]
      exact h
    | ok row =>
      have hdb := (AssignStudentToCoursework_ok db
        (AssignStudentToCoursework db c.now c.faults sid cid).2 c.now c.faults sid cid row
        (Prod.ext hres rfl)).2.2.2.2.2.2.2
      have hgrade : row.Grade = none := by
        unfold AssignStudentToCoursework at hres
        split at hres
        · cases hres
        · split at hres
          · cases hres
          · split at hres
            · cases hres
            · unfold Create at hres
              dsimp only at hres
              split at hres
              · cases hres
              · split at hres
                · cases hres
                · cases hres
                  rfl
      have key : GradesInRange
          { db with studentCourseworks := db.studentCourseworks ++ [row] } := by
        intro y hy
        rcases List.mem_append.1 hy with hy1 | hy1
        · exact h y hy1
        · rw [List.mem_singleton.1 hy1]
          unfold GradeInRange
          rw [hgrade]
          trivial
      exact hdb ▸ key
  | unassign sid =>
    dsimp only
    unfold UnassignStudentFromCoursework
    split
    · exact h
    · exact Delete_gradesInRange _ _ _ _ h
  | updateStatus id status => exact UpdateStatus_gradesInRange _ _ _ _ _ h
  | submit id =>
    dsimp only
    unfold SubmitCoursework
    have h1 := UpdateStatus_gradesInRange db (c.faults 0) c.now id StatusSubmitted h
    split
    · rename_i heq; rw [heq] at h1; exact h1
    · rename_i heq; rw [heq] at h1
      exact SetSubmitted_gradesInRange _ _ _ _ _ h1
  | grade id g f =>
    dsimp only
    unfold GradeCoursework
    have h1 := UpdateStatus_gradesInRange db (c.faults 0) c.now id StatusReviewed h
    split
    · rename_i heq; rw [heq] at h1; exact h1
    · rename_i heq; rw [heq] at h1
      exact SetGrade_gradesInRange _ _ _ _ _ _ h1
  | complete id =>
    dsimp only
    unfold CompleteCoursework
    have h1 := UpdateStatus_gradesInRange db (c.faults 0) c.now id StatusCompleted h
    split
    · rename_i heq; rw [heq] at h1; exact h1
    · rename_i heq; rw [heq] at h1
      exact SetCompleted_gradesInRange _ _ _ _ _ h1

/-! ## The grade range -/

/-- C20 (grade range invariant): from a database in which the grade of every
assignment row is unset or in the range 2 to 5, every sequence of workflow
calls executed one after the other (assign, unassign, generic status update,
submit, grade, complete; each succeeding or failing, whatever its arguments
and the outcomes of its statements) reaches a database in which the grade of
every row is unset or an integer in the range 2 to 5. -/
theorem grade_range_invariant (db : DB) (calls : List Call) (h : GradesInRange db) :
    GradesInRange (run db calls) := by
  induction calls generalizing db with
  | nil => exact h
  | cons c rest ih => exact ih (step db c) (step_gradesInRange db c h)

theorem grade_range_invariant_witness :
    GradesInRange enrolledDB ∧ GradesInRange (run enrolledDB gradingCalls) ∧
    (run enrolledDB gradingCalls).studentCourseworks.map (fun r => r.Grade) =
      [some 5, none] :=
  ⟨by decide, grade_range_invariant enrolledDB gradingCalls (by decide), by decide⟩

/-! ## The catalog: capacity, availability, listing -/

open CourseworkManagerImpl

namespace courseworkRepository

end courseworkRepository

/-- C22 as stated fails: coursework 4 has `IsAvailable = false` and two free
slots, student 8 has no live row, and the enrollment succeeds and stores the
assignment. -/
theorem closed_coursework_accepts_enrollment :
    courseworkRepository.GetByID closedDB none 4 = .ok closedCoursework ∧
    closedCoursework.IsAvailable = false ∧ ¬ HasLiveAssignment closedDB 8 ∧
    (AssignStudentToCoursework closedDB 9 noFault 8 4).1 =
      .ok { ID := 2, CreatedAt := 9, UpdatedAt := 9, DeletedAt := none, StudentID := 8,
            CourseworkID := 4, Status := StatusAssigned, SubmittedAt := none,
            CompletedAt := none, Grade := none, Feedback := "" } ∧
    HasLiveAssignment (AssignStudentToCoursework closedDB 9 noFault 8 4).2 8 := by
  decide

/-- Rewriting the `IsAvailable` flags of the courseworks. -/
theorem GetWithStudentCount_availability (db : DB) (av : Coursework → Bool)
    (f1 f2 : Option String) (cid : Nat) :
    courseworkRepository.GetWithStudentCount
        { db with courseworks := db.courseworks.map (fun c => { c with IsAvailable := av c }) }
        f1 f2 cid =
      (courseworkRepository.GetWithStudentCount db f1 f2 cid).map
        (fun p => ({ p.1 with IsAvailable := av p.1 }, p.2)) := by
  have hfind : (db.courseworks.map (fun c => { c with IsAvailable := av c })).find?
      (fun c => CourseworkLive c && c.ID == cid) =
      (db.courseworks.find? (fun c => CourseworkLive c && c.ID == cid)).map
        (fun c => { c with IsAvailable := av c }) := by
    induction db.courseworks with
    | nil => rfl
    | cons a t ih =>
      simp only [List.map_cons, List.find?_cons]
      by_cases ha : (CourseworkLive a && a.ID == cid) = true
      · have ha1 : (CourseworkLive { a with IsAvailable := av a } && a.ID == cid) = true := ha
        simp only [ha, ha1, Option.map_some']
      · have ha0 : (CourseworkLive a && a.ID == cid) = false := by simpa using ha
        have ha1 : (CourseworkLive { a with IsAvailable := av a } && a.ID == cid) = false := ha0
        simp only [ha0, ha1]
        exact ih
  unfold courseworkRepository.GetWithStudentCount courseworkRepository.GetByID
  by_cases hz : cid = 0
  · simp only [hz, if_true]
    rfl
  · simp only [if_neg hz]
    cases f1 with
    | some e => rfl
    | none =>
      dsimp only
      rw [hfind]
      cases db.courseworks.find? (fun c => CourseworkLive c && c.ID == cid) with
      | none => rfl
      | some cw =>
        cases f2 with
        | some e => rfl
        | none => rfl

/-- C22, amended: `AssignStudentToCoursework` does not consult `IsAvailable`.
Whatever the student id, the coursework id and the outcomes of the
statements, rewriting the `IsAvailable` flags of the stored courseworks in any
way changes neither the result of the call nor the assignment table it
leaves; and a non-zero student with no live row is enrolled in a coursework
that `GetByID` finds with `IsAvailable = false` and a free slot. -/
theorem enrollment_ignores_availability (db : DB) (now : Time) (sid cid : Nat) :
    (∀ (av : Coursework → Bool) (faults : Nat → Option String),
      (AssignStudentToCoursework
          { db with courseworks := db.courseworks.map (fun c => { c with IsAvailable := av c }) }
          now faults sid cid).1 =
        (AssignStudentToCoursework db now faults sid cid).1 ∧
      (AssignStudentToCoursework
          { db with courseworks := db.courseworks.map (fun c => { c with IsAvailable := av c }) }
          now faults sid cid).2.studentCourseworks =
        (AssignStudentToCoursework db now faults sid cid).2.studentCourseworks) ∧
    (∀ cw, sid ≠ 0 → ¬ HasLiveAssignment db sid →
      courseworkRepository.GetByID db none cid = .ok cw → cw.IsAvailable = false →
      (enrollmentCount db cid : Int) < cw.MaxStudents →
      ∃ row db1, AssignStudentToCoursework db now noFault sid cid = (.ok row, db1) ∧
        db1.studentCourseworks = db.studentCourseworks ++ [row] ∧
        row.StudentID = sid ∧ row.CourseworkID = cid ∧ row.Status = StatusAssigned) := by
  constructor
  · intro av faults
    unfold AssignStudentToCoursework
    have hlook : studentCourseworkRepository.GetByStudent
        { db with courseworks := db.courseworks.map (fun c => { c with IsAvailable := av c }) }
        (faults 0) sid = studentCourseworkRepository.GetByStudent db (faults 0) sid := rfl
    rw [hlook, GetWithStudentCount_availability]
    cases studentCourseworkRepository.GetByStudent db (faults 0) sid with
    | ok sc => exact ⟨rfl, rfl⟩
    | error e =>
      dsimp only
      cases courseworkRepository.GetWithStudentCount db (faults 1) (faults 2) cid with
      | error e1 => exact ⟨rfl, rfl⟩
      | ok p =>
        obtain ⟨cw, count⟩ := p
        simp only [Except.map]
        by_cases hcap : count ≥ cw.MaxStudents
        · simp only [hcap, if_true, and_self]
        · simp only [hcap, if_false]
          unfold studentCourseworkRepository.Create
          dsimp only
          split
          · exact ⟨rfl, rfl⟩
          · split <;> exact ⟨rfl, rfl⟩
  · intro cw hs hfree hcw _ hcap
    exact ⟨_, _, AssignStudentToCoursework_free db now sid cid cw hs hfree hcw hcap,
      rfl, rfl, rfl, rfl⟩

theorem enrollment_ignores_availability_witness :
    (AssignStudentToCoursework
        { closedDB with courseworks :=
            closedDB.courseworks.map (fun c => { c with IsAvailable := true }) }
        9 noFault 8 4).1 = (AssignStudentToCoursework closedDB 9 noFault 8 4).1 ∧
    ∃ row db1, AssignStudentToCoursework closedDB 9 noFault 8 4 = (.ok row, db1) ∧
      db1.studentCourseworks = closedDB.studentCourseworks ++ [row] ∧
      row.StudentID = 8 ∧ row.CourseworkID = 4 ∧ row.Status = StatusAssigned :=
  have h := enrollment_ignores_availability closedDB 9 8 4
  ⟨(h.1 (fun _ => true) noFault).1,
   h.2 closedCoursework (by decide) (by decide) (by decide) (by decide) (by decide)⟩

/-- What `GetAvailableCourseworks` returns when its listing is answered: the
available ones among the first ten live courseworks. -/
theorem GetAvailableCourseworks_eq (db : DB) (studentID : Nat) :
    GetAvailableCourseworks db noFault studentID =
      (.ok (((db.courseworks.filter (fun c => CourseworkLive c)).take 10).filter
        (fun cw => cw.IsAvailable)), db) := by
  unfold GetAvailableCourseworks courseworkRepository.ListCourseworks
  simp [noFault]

/-- C24, the code at a failing input: with eleven available courseworks
stored, `GetAvailableCourseworks` returns the ten with keys 1 to 10; the
coursework with key 11 is stored, live and available, and is not returned. -/
theorem available_courseworks_stop_at_ten :
    (GetAvailableCourseworks elevenCourseworksDB noFault 7).1 =
      .ok ((List.range 10).map (fun i => { sampleCourseworkTwo with ID := i + 1 })) ∧
    (∃ c ∈ elevenCourseworksDB.courseworks,
      c.ID = 11 ∧ CourseworkLive c = true ∧ c.IsAvailable = true) ∧
    elevenCourseworksDB.courseworks.length = 11 := by
  decide

/-! ## The reviewed bucket -/

/-- The six statuses partition the records whose status is one of them. -/
theorem countP_statuses (records : List StudentCoursework)
    (hall : ∀ r ∈ records, IsCourseworkStatus r.Status) :
    records.countP (fun r => r.Status == StatusAssigned) +
      records.countP (fun r => r.Status == StatusInProgress) +
      records.countP (fun r => r.Status == StatusSubmitted) +
      records.countP (fun r => r.Status == StatusCompleted) +
      records.countP (fun r => r.Status == StatusFailed) +
      records.countP (fun r => r.Status == StatusReviewed) = records.length := by
  induction records with
  | nil => rfl
  | cons r t ih =>
    have iht := ih (fun x hx => hall x (List.mem_cons_of_mem r hx))
    have hr := hall r (List.mem_cons_self r t)
    simp only [List.countP_cons, List.length_cons, beq_iff_eq]
    unfold IsCourseworkStatus at hr
    rcases hr with h | h | h | h | h | h <;>
      · rw [h]
        simp only [StatusAssigned, StatusInProgress, StatusSubmitted, StatusReviewed,
          StatusCompleted, StatusFailed] at iht ⊢
        simp only [String.reduceEq, if_true, if_false]
        omega

/-- C25 (reviewed bucket omission): when the by-coursework query returns
records whose statuses all lie in the six-member enumeration, the report of
`GetCourseworkProgress` satisfies `AssignedStudents + InProgressCount +
SubmittedCount + CompletedCount + FailedCount = TotalStudents -` (number of
records with status `reviewed`), with `TotalStudents` the number of records
and one summary per record; and one turn of the loop on a `reviewed` record
moves none of the five counters and appends the summary of the record. -/
theorem reviewed_bucket_omission (db : DB) (faults : Nat → Option String) (cid : Nat)
    (records : List StudentCoursework)
    (hrec : studentCourseworkRepository.GetByCoursework db (faults 0) cid = .ok records)
    (hall : ∀ r ∈ records, IsCourseworkStatus r.Status) :
    (∃ report, GetCourseworkProgress db faults cid = (.ok report, db) ∧
      report.AssignedStudents + report.InProgressCount + report.SubmittedCount +
          report.CompletedCount + report.FailedCount =
        report.TotalStudents -
          ((records.countP (fun r => r.Status == StatusReviewed) : Nat) : Int) ∧
      report.TotalStudents = (records.length : Int) ∧
      report.Students.length = records.length) ∧
    (∀ (rep : CourseworkProgressReport) (r : StudentCoursework), r.Status = StatusReviewed →
      (progressLoopBody rep r).AssignedStudents = rep.AssignedStudents ∧
      (progressLoopBody rep r).InProgressCount = rep.InProgressCount ∧
      (progressLoopBody rep r).SubmittedCount = rep.SubmittedCount ∧
      (progressLoopBody rep r).CompletedCount = rep.CompletedCount ∧
      (progressLoopBody rep r).FailedCount = rep.FailedCount ∧
      (progressLoopBody rep r).TotalStudents = rep.TotalStudents ∧
      (progressLoopBody rep r).Students.length = rep.Students.length + 1) := by
  constructor
  · obtain ⟨_, _, a3, a4, a5, a6, a7, a8, a9⟩ := foldl_progressLoopBody records
      { CourseworkID := cid, CourseworkTitle := "", TotalStudents := (records.length : Int),
        AssignedStudents := 0, InProgressCount := 0, SubmittedCount := 0,
        CompletedCount := 0, FailedCount := 0, Students := [] }
    have hsum := countP_statuses records hall
    refine ⟨_, ?_, ?_, a3, ?_⟩
    · unfold GetCourseworkProgress
      rw [hrec]
    · dsimp only at a3 a4 a5 a6 a7 a8
      rw [a3, a4, a5, a6, a7, a8]
      omega
    · rw [a9]
      simp
  · intro rep r hr
    obtain ⟨_, _, b3, b4, b5, b6, b7, b8, b9⟩ := progressLoopBody_spec rep r
    rw [b3, b4, b5, b6, b7, b8, b9, hr]
    simp only [StatusAssigned, StatusInProgress, StatusSubmitted, StatusReviewed,
      StatusCompleted, StatusFailed, String.reduceEq, if_false, add_zero, List.length_append,
      List.length_singleton, and_self]

theorem reviewed_bucket_omission_witness :
    ∃ report, GetCourseworkProgress reviewedDB noFault 3 = (.ok report, reviewedDB) ∧
      report.AssignedStudents + report.InProgressCount + report.SubmittedCount +
          report.CompletedCount + report.FailedCount = 2 ∧
      report.TotalStudents = 3 ∧ report.Students.length = 3 := by
  obtain ⟨report, h1, h2, h3, h4⟩ :=
    (reviewed_bucket_omission reviewedDB noFault 3 _ rfl (by decide)).1
  refine ⟨report, h1, ?_, ?_, ?_⟩
  · rw [h2, h3]; decide
  · rw [h3]; decide
  · rw [h4]; decide

/-! ## Persistence failures -/

namespace studentCourseworkRepository

theorem UpdateStatus_fault (db : DB) (now : Time) (id : Nat) (status : CourseworkStatus)
    (e : String) (r : StudentCoursework) (hr : GetByID db none id = .ok r)
    (hv : IsCourseworkStatus status) :
    UpdateStatus db (some e) now id status =
      (.error (.persistence "failed to update status" e), db) := by
  have hid := (GetByID_ok db none id r hr).1
  unfold IsCourseworkStatus at hv
  unfold UpdateStatus
  rw [if_neg hid, if_neg (not_not.2 hv)]

end studentCourseworkRepository

/-- C26 as stated fails when the second write fails: `SubmitCoursework` on the
live row 1 returns the error of `SetSubmitted`, and the row read back has
status `submitted` where it had `assigned`. -/
theorem submit_second_write_fails_status_stays_written :
    studentCourseworkRepository.GetByID enrolledDB none 1 = .ok sampleAssignment ∧
    (SubmitCoursework enrolledDB 9 secondStatementFails 1).1 =
      .error (.persistence "failed to set submitted" "database is locked") ∧
    studentCourseworkRepository.GetByID
        (SubmitCoursework enrolledDB 9 secondStatementFails 1).2 none 1 =
      .ok { sampleAssignment with Status := StatusSubmitted, UpdatedAt := 9 } ∧
    sampleAssignment.Status ≠ StatusSubmitted := by
  decide

/-- C26, amended: for a live assignment row `r` found under the id, and each of
`SubmitCoursework`, `GradeCoursework` (grade in the range 2 to 5) and
`CompleteCoursework`: when the first write (the status update) comes back with
a persistence failure, the call returns that error and the database is as it
was; when the first write is done and the second comes back with a persistence
failure, the call returns that error and the row found under the id is `r`
with the status written by the first write (and the time of the call as
`UpdatedAt`), all its other columns as they were. -/
theorem persistence_failure_effects (db : DB) (now : Time) (id : Nat) (g : Int) (f : String)
    (r : StudentCoursework) (hr : studentCourseworkRepository.GetByID db none id = .ok r)
    (hg : 2 ≤ g ∧ g ≤ 5) (faults : Nat → Option String) (e : String) :
    (faults 0 = some e →
      SubmitCoursework db now faults id =
        (.error (.persistence "failed to update status" e), db) ∧
      GradeCoursework db now faults id g f =
        (.error (.persistence "failed to update status" e), db) ∧
      CompleteCoursework db now faults id =
        (.error (.persistence "failed to update status" e), db)) ∧
    (faults 0 = none → faults 1 = some e →
      (∃ db1, SubmitCoursework db now faults id =
          (.error (.persistence "failed to set submitted" e), db1) ∧
        studentCourseworkRepository.GetByID db1 none id =
          .ok { r with Status := StatusSubmitted, UpdatedAt := now }) ∧
      (∃ db1, GradeCoursework db now faults id g f =
          (.error (.persistence "failed to set grade" e), db1) ∧
        studentCourseworkRepository.GetByID db1 none id =
          .ok { r with Status := StatusReviewed, UpdatedAt := now }) ∧
      (∃ db1, CompleteCoursework db now faults id =
          (.error (.persistence "failed to set completed" e), db1) ∧
        studentCourseworkRepository.GetByID db1 none id =
          .ok { r with Status := StatusCompleted, UpdatedAt := now })) := by
  have hid := (studentCourseworkRepository.GetByID_ok db none id r hr).1
  have hgr : ¬ (g < 2 ∨ g > 5) := by omega
  constructor
  · intro h0
    refine ⟨?_, ?_, ?_⟩
    · unfold SubmitCoursework
      rw [h0, studentCourseworkRepository.UpdateStatus_fault db now id _ e r hr
        (by simp [IsCourseworkStatus])]
    · unfold GradeCoursework
      rw [h0, studentCourseworkRepository.UpdateStatus_fault db now id _ e r hr
        (by simp [IsCourseworkStatus])]
    · unfold CompleteCoursework
      rw [h0, studentCourseworkRepository.UpdateStatus_fault db now id _ e r hr
        (by simp [IsCourseworkStatus])]
  · intro h0 h1
    refine ⟨⟨_, ?_, studentCourseworkRepository.GetByID_update db id r
        (fun r => { r with Status := StatusSubmitted, UpdatedAt := now })
        (fun _ => ⟨rfl, rfl⟩) hr⟩,
      ⟨_, ?_, studentCourseworkRepository.GetByID_update db id r
        (fun r => { r with Status := StatusReviewed, UpdatedAt := now })
        (fun _ => ⟨rfl, rfl⟩) hr⟩,
      ⟨_, ?_, studentCourseworkRepository.GetByID_update db id r
        (fun r => { r with Status := StatusCompleted, UpdatedAt := now })
        (fun _ => ⟨rfl, rfl⟩) hr⟩⟩
    · unfold SubmitCoursework
      rw [h0, studentCourseworkRepository.UpdateStatus_found db now id _ r hr (by simp), h1]
      dsimp only
      unfold studentCourseworkRepository.SetSubmitted
      rw [if_neg hid]
    · unfold GradeCoursework
      rw [h0, studentCourseworkRepository.UpdateStatus_found db now id _ r hr (by simp), h1]
      dsimp only
      unfold studentCourseworkRepository.SetGrade
      rw [if_neg hid, if_neg hgr]
    · unfold CompleteCoursework
      rw [h0, studentCourseworkRepository.UpdateStatus_found db now id _ r hr (by simp), h1]
      dsimp only
      unfold studentCourseworkRepository.SetCompleted
      rw [if_neg hid]

theorem persistence_failure_effects_witness :
    SubmitCoursework enrolledDB 9 firstStatementFails 1 =
      (.error (.persistence "failed to update status" "database is locked"), enrolledDB) ∧
    (∃ db1, GradeCoursework enrolledDB 9 secondStatementFails 1 4 "good" =
        (.error (.persistence "failed to set grade" "database is locked"), db1) ∧
      studentCourseworkRepository.GetByID db1 none 1 =
        .ok { sampleAssignment with Status := StatusReviewed, UpdatedAt := 9 }) :=
  ⟨((persistence_failure_effects enrolledDB 9 1 4 "good" sampleAssignment (by decide)
      (by decide) firstStatementFails "database is locked").1 rfl).1,
   ((persistence_failure_effects enrolledDB 9 1 4 "good" sampleAssignment (by decide)
      (by decide) secondStatementFails "database is locked").2 rfl rfl).2.1⟩

/-- C27, the code at two failing inputs.  Student 7 has a live row and the
by-student lookup of the enrollment comes back with a persistence failure:
the call does not return that error, it goes on to read coursework 2 and
inserts a second live row for student 7.  Student id 0 is rejected by the
lookup with "invalid student ID": the call does not return that error either,
it goes on to the coursework and fails in the insert with
"student ID and coursework ID are required". -/
theorem enrollment_swallows_lookup_error :
    (studentCourseworkRepository.GetByStudent enrolledDB (firstStatementFails 0) 7 =
        .error (.persistence "failed to get by student" "database is locked") ∧
      (AssignStudentToCoursework enrolledDB 9 firstStatementFails 7 2).1 =
        .ok { ID := 2, CreatedAt := 9, UpdatedAt := 9, DeletedAt := none, StudentID := 7,
              CourseworkID := 2, Status := StatusAssigned, SubmittedAt := none,
              CompletedAt := none, Grade := none, Feedback := "" } ∧
      assignmentCount (AssignStudentToCoursework enrolledDB 9 firstStatementFails 7 2).2 7 =
        2) ∧
    (studentCourseworkRepository.GetByStudent emptyDB none 0 = .error .invalidStudentID ∧
      AssignStudentToCoursework emptyDB 5 noFault 0 1 = (.error .idsRequired, emptyDB)) := by
  decide

/-! ## Timestamps -/

/-- C29 as stated fails: the row submitted at time 8 and submitted again at
time 12 has `SubmittedAt = 12`; the row completed at time 9 and completed
again at time 12 has `CompletedAt = 12`. -/
theorem second_stamp_overwrites_first :
    (studentCourseworkRepository.GetByID submittedDB none 1).toOption.map
        (fun r => r.SubmittedAt) = some (some 8) ∧
    (studentCourseworkRepository.GetByID
        (SubmitCoursework submittedDB 12 noFault 1).2 none 1).toOption.map
        (fun r => r.SubmittedAt) = some (some 12) ∧
    (studentCourseworkRepository.GetByID
        (CompleteCoursework enrolledDB 9 noFault 1).2 none 1).toOption.map
        (fun r => r.CompletedAt) = some (some 9) ∧
    (studentCourseworkRepository.GetByID
        (CompleteCoursework (CompleteCoursework enrolledDB 9 noFault 1).2 12 noFault 1).2
        none 1).toOption.map (fun r => r.CompletedAt) = some (some 12) := by
  decide

/-- C29, amended: for a live assignment row `r` found under the id, with
`SubmittedAt` already set, a further `SubmitCoursework` (no statement
failing) succeeds and the row then has `SubmittedAt` equal to the time of that
call; with `CompletedAt` already set, a further `CompleteCoursework` succeeds
and the row then has `CompletedAt` equal to the time of that call. -/
theorem stamps_follow_last_call (db : DB) (now : Time) (id : Nat) (r : StudentCoursework)
    (hr : studentCourseworkRepository.GetByID db none id = .ok r) :
    (∀ t0, r.SubmittedAt = some t0 → ∃ db1 r1,
      SubmitCoursework db now noFault id = (.ok (), db1) ∧
      studentCourseworkRepository.GetByID db1 none id = .ok r1 ∧
      r1.SubmittedAt = some now) ∧
    (∀ t0, r.CompletedAt = some t0 → ∃ db1 r1,
      CompleteCoursework db now noFault id = (.ok (), db1) ∧
      studentCourseworkRepository.GetByID db1 none id = .ok r1 ∧
      r1.CompletedAt = some now) := by
  constructor
  · intro _ _
    obtain ⟨db1, h1, h2⟩ := SubmitCoursework_found db now id r hr
    exact ⟨db1, _, h1, h2, rfl⟩
  · intro _ _
    obtain ⟨db1, h1, h2⟩ := CompleteCoursework_found db now id r hr
    exact ⟨db1, _, h1, h2, rfl⟩

theorem stamps_follow_last_call_witness :
    ∃ db1 r1, SubmitCoursework submittedDB 12 noFault 1 = (.ok (), db1) ∧
      studentCourseworkRepository.GetByID db1 none 1 = .ok r1 ∧
      r1.SubmittedAt = some 12 :=
  (stamps_follow_last_call submittedDB 12 1
    { sampleAssignment with Status := StatusSubmitted, SubmittedAt := some 8, UpdatedAt := 8 }
    (by decide)).1 8 rfl

/-! ## The pre-check -/

/-- For a non-zero student id and no statement failing, the pre-check passes
exactly when the enrollment succeeds. -/
theorem CanAssign_iff_Assign (db : DB) (now : Time) (sid cid : Nat) (hs : sid ≠ 0) :
    (CanAssignStudentToCoursework db noFault sid cid).1 = .ok () ↔
      ∃ row, (AssignStudentToCoursework db now noFault sid cid).1 = .ok row := by
  unfold CanAssignStudentToCoursework AssignStudentToCoursework
  cases studentCourseworkRepository.GetByStudent db (noFault 0) sid with
  | ok sc => simp
  | error e =>
    dsimp only
    cases hc : courseworkRepository.GetWithStudentCount db (noFault 1) (noFault 2) cid with
    | error e1 => simp
    | ok p =>
      obtain ⟨cw, count⟩ := p
      have hcid : cid ≠ 0 := by
        have := (courseworkRepository.GetWithStudentCount_ok db _ _ cid cw count hc).1
        exact (courseworkRepository.GetByID_found db _ cid cw this).2.2.2.1
      dsimp only
      by_cases hcap : count ≥ cw.MaxStudents
      · simp [hcap]
      · simp [hcap, studentCourseworkRepository.Create, hs, hcid, noFault]

/-- C30, the code at a failing input: for student id 0 and coursework 1, which
has a free slot, the pre-check returns no error while the enrollment fails
with "student ID and coursework ID are required". -/
theorem precheck_passes_student_zero :
    CanAssignStudentToCoursework emptyDB noFault 0 1 = (.ok (), emptyDB) ∧
    AssignStudentToCoursework emptyDB 5 noFault 0 1 = (.error .idsRequired, emptyDB) := by
  decide

/-! ## Lemmas on the statuses written by the operations -/

theorem StatusMoves_refl (target : CourseworkStatus) (db : DB) : StatusMoves target db db :=
  ⟨id, by simp, fun _ => Or.inl rfl⟩

theorem StatusMoves_trans {target : CourseworkStatus} {a b c : DB}
    (hab : StatusMoves target a b) (hbc : StatusMoves target b c) : StatusMoves target a c := by
  obtain ⟨g1, hg1, hk1⟩ := hab
  obtain ⟨g2, hg2, hk2⟩ := hbc
  refine ⟨g2 ∘ g1, by rw [hg2, hg1, List.map_map], fun r => ?_⟩
  rcases hk2 (g1 r) with h2 | h2
  · rcases hk1 r with h1 | h1
    · exact Or.inl (h2.trans h1)
    · exact Or.inr (h2.trans h1)
  · exact Or.inr h2

theorem update_statusMoves (target : CourseworkStatus) (db : DB) (id : Nat)
    (assign : StudentCoursework → StudentCoursework)
    (h : ∀ r, (assign r).Status = r.Status ∨ (assign r).Status = target) :
    StatusMoves target db (updateStudentCourseworkByID db id assign).1 := by
  refine ⟨_, rfl, fun r => ?_⟩
  by_cases hr : (StudentCourseworkLive r && r.ID == id) = true
  · simpa [hr] using h r
  · simp [hr]

namespace studentCourseworkRepository

theorem Delete_statusMoves (target : CourseworkStatus) (db : DB) (fault : Option String)
    (now : Time) (id : Nat) : StatusMoves target db (Delete db fault now id).2 := by
  unfold Delete
  split
  · exact StatusMoves_refl target db
  · split
    · exact StatusMoves_refl target db
    · have := update_statusMoves target db id (fun r => { r with DeletedAt := some now })
        (fun _ => Or.inl rfl)
      dsimp only
      split <;> exact this

theorem UpdateStatus_statusMoves (db : DB) (fault : Option String) (now : Time) (id : Nat)
    (status : CourseworkStatus) : StatusMoves status db (UpdateStatus db fault now id status).2 := by
  unfold UpdateStatus
  split
  · exact StatusMoves_refl status db
  · split
    · exact StatusMoves_refl status db
    · split
      · exact StatusMoves_refl status db
      · have := update_statusMoves status db id
          (fun r => { r with Status := status, UpdatedAt := now }) (fun _ => Or.inr rfl)
        dsimp only
        split <;> exact this

theorem SetGrade_statusMoves (target : CourseworkStatus) (db : DB) (fault : Option String)
    (now : Time) (id : Nat) (grade : Int) (feedback : String) :
    StatusMoves target db (SetGrade db fault now id grade feedback).2 := by
  unfold SetGrade
  split
  · exact StatusMoves_refl target db
  · split
    · exact StatusMoves_refl target db
    · split
      · exact StatusMoves_refl target db
      · have := update_statusMoves target db id
          (fun r => { r with Grade := some grade, Feedback := feedback, UpdatedAt := now })
          (fun _ => Or.inl rfl)
        dsimp only
        split <;> exact this

theorem SetSubmitted_statusMoves (db : DB) (fault : Option String) (now : Time) (id : Nat)
    (submittedAt : Time) :
    StatusMoves StatusSubmitted db (SetSubmitted db fault now id submittedAt).2 := by
  unfold SetSubmitted
  split
  · exact StatusMoves_refl _ db
  · split
    · exact StatusMoves_refl _ db
    · have := update_statusMoves StatusSubmitted db id
        (fun r => { r with Status := StatusSubmitted, SubmittedAt := some submittedAt,
                           UpdatedAt := now }) (fun _ => Or.inr rfl)
      dsimp only
      split <;> exact this

theorem SetCompleted_statusMoves (db : DB) (fault : Option String) (now : Time) (id : Nat)
    (completedAt : Time) :
    StatusMoves StatusCompleted db (SetCompleted db fault now id completedAt).2 := by
  unfold SetCompleted
  split
  · exact StatusMoves_refl _ db
  · split
    · exact StatusMoves_refl _ db
    · have := update_statusMoves StatusCompleted db id
        (fun r => { r with Status := StatusCompleted, CompletedAt := some completedAt,
                           UpdatedAt := now }) (fun _ => Or.inr rfl)
      dsimp only
      split <;> exact this

end studentCourseworkRepository

namespace StudentCourseworkManagerImpl

open studentCourseworkRepository

theorem SubmitCoursework_statusMoves (db : DB) (now : Time) (faults : Nat → Option String)
    (id : Nat) : StatusMoves StatusSubmitted db (SubmitCoursework db now faults id).2 := by
  unfold SubmitCoursework
  have h1 := UpdateStatus_statusMoves db (faults 0) now id StatusSubmitted
  split
  · rename_i heq; rw [heq] at h1; exact h1
  · rename_i heq; rw [heq] at h1
    exact StatusMoves_trans h1 (SetSubmitted_statusMoves _ _ _ _ _)

theorem GradeCoursework_statusMoves (db : DB) (now : Time) (faults : Nat → Option String)
    (id : Nat) (grade : Int) (feedback : String) :
    StatusMoves StatusReviewed db (GradeCoursework db now faults id grade feedback).2 := by
  unfold GradeCoursework
  have h1 := UpdateStatus_statusMoves db (faults 0) now id StatusReviewed
  split
  · rename_i heq; rw [heq] at h1; exact h1
  · rename_i heq; rw [heq] at h1
    exact StatusMoves_trans h1 (SetGrade_statusMoves _ _ _ _ _ _ _)

theorem CompleteCoursework_statusMoves (db : DB) (now : Time) (faults : Nat → Option String)
    (id : Nat) : StatusMoves StatusCompleted db (CompleteCoursework db now faults id).2 := by
  unfold CompleteCoursework
  have h1 := UpdateStatus_statusMoves db (faults 0) now id StatusCompleted
  split
  · rename_i heq; rw [heq] at h1; exact h1
  · rename_i heq; rw [heq] at h1
    exact StatusMoves_trans h1 (SetCompleted_statusMoves _ _ _ _ _)

theorem UnassignStudentFromCoursework_statusMoves (target : CourseworkStatus) (db : DB)
    (now : Time) (faults : Nat → Option String) (sid : Nat) :
    StatusMoves target db (UnassignStudentFromCoursework db now faults sid).2 := by
  unfold UnassignStudentFromCoursework
  split
  · exact StatusMoves_refl target db
  · exact Delete_statusMoves target _ _ _ _

/-- An enrollment leaves the database as it was or appends one row with status
`assigned`. -/
theorem AssignStudentToCoursework_appends (db : DB) (now : Time)
    (faults : Nat → Option String) (sid cid : Nat) :
    (AssignStudentToCoursework db now faults sid cid).2 = db ∨
    ∃ row, (AssignStudentToCoursework db now faults sid cid).2.studentCourseworks =
        db.studentCourseworks ++ [row] ∧ row.Status = StatusAssigned := by
  unfold AssignStudentToCoursework
  split
  · exact Or.inl rfl
  · split
    · exact Or.inl rfl
    · split
      · exact Or.inl rfl
      · unfold studentCourseworkRepository.Create
        dsimp only
        split
        · exact Or.inl rfl
        · split
          · exact Or.inl rfl
          · exact Or.inr ⟨_, rfl, rfl⟩

end StudentCourseworkManagerImpl

/-! ## Reachability of the statuses -/

/-- C28 (`in_progress` and `failed` are reached only through the generic
update): whatever its arguments and the outcomes of its statements,
`AssignStudentToCoursework` leaves the rows as they were or appends one row with
status `assigned`; after `SubmitCoursework`, `GradeCoursework` and
`CompleteCoursework` every row has the status it had or, respectively,
`submitted`, `reviewed`, `completed`.  Hence after any call other than
`UpdateCourseworkStatus` a row with status `in_progress` or `failed` had that
status before the call, and a row the call created has status `assigned`. -/
theorem specialised_operations_statuses (db : DB) (now : Time)
    (faults : Nat → Option String) :
    (∀ sid cid, (AssignStudentToCoursework db now faults sid cid).2 = db ∨
      ∃ row, (AssignStudentToCoursework db now faults sid cid).2.studentCourseworks =
        db.studentCourseworks ++ [row] ∧ row.Status = StatusAssigned) ∧
    (∀ id, StatusMoves StatusSubmitted db (SubmitCoursework db now faults id).2) ∧
    (∀ id g f, StatusMoves StatusReviewed db (GradeCoursework db now faults id g f).2) ∧
    (∀ id, StatusMoves StatusCompleted db (CompleteCoursework db now faults id).2) ∧
    (∀ op, (∀ id s, op ≠ Op.updateStatus id s) →
      ∃ (g : StudentCoursework → StudentCoursework) (created : List StudentCoursework),
        (step db { now := now, faults := faults, op := op }).studentCourseworks =
          db.studentCourseworks.map g ++ created ∧
        (∀ r, (g r).Status = StatusInProgress ∨ (g r).Status = StatusFailed →
          (g r).Status = r.Status) ∧
        (∀ x ∈ created, x.Status = StatusAssigned)) := by
  have key : ∀ (target : CourseworkStatus) (db1 : DB), target ≠ StatusInProgress →
      target ≠ StatusFailed → StatusMoves target db db1 →
      ∃ (g : StudentCoursework → StudentCoursework) (created : List StudentCoursework),
        db1.studentCourseworks = db.studentCourseworks.map g ++ created ∧
        (∀ r, (g r).Status = StatusInProgress ∨ (g r).Status = StatusFailed →
          (g r).Status = r.Status) ∧
        (∀ x ∈ created, x.Status = StatusAssigned) := by
    intro target db1 h1 h2 ⟨g, hg, hk⟩
    refine ⟨g, [], by simpa using hg, fun r hr => ?_, fun x hx => by cases hx⟩
    rcases hk r with h | h
    · exact h
    · rcases hr with hr | hr
      · exact absurd (h.symm.trans hr) h1
      · exact absurd (h.symm.trans hr) h2
  refine ⟨AssignStudentToCoursework_appends db now faults,
    SubmitCoursework_statusMoves db now faults, GradeCoursework_statusMoves db now faults,
    CompleteCoursework_statusMoves db now faults, ?_⟩
  intro op hop
  cases op with
  | assign sid cid =>
    rcases AssignStudentToCoursework_appends db now faults sid cid with h | ⟨row, h, hrow⟩
    · refine ⟨id, [], ?_, fun _ _ => rfl, fun x hx => by cases hx⟩
      show (AssignStudentToCoursework db now faults sid cid).2.studentCourseworks = _
      rw [h]
      simp
    · refine ⟨id, [row], ?_, fun _ _ => rfl, fun x hx => ?_⟩
      · show (AssignStudentToCoursework db now faults sid cid).2.studentCourseworks = _
        rw [h]
        simp
      · rw [List.mem_singleton.1 hx]
        exact hrow
  | unassign sid =>
    exact key StatusAssigned _ (by decide) (by decide)
      (UnassignStudentFromCoursework_statusMoves StatusAssigned db now faults sid)
  | updateStatus id s => exact absurd rfl (hop id s)
  | submit id =>
    exact key StatusSubmitted _ (by decide) (by decide)
      (SubmitCoursework_statusMoves db now faults id)
  | grade id g f =>
    exact key StatusReviewed _ (by decide) (by decide)
      (GradeCoursework_statusMoves db now faults id g f)
  | complete id =>
    exact key StatusCompleted _ (by decide) (by decide)
      (CompleteCoursework_statusMoves db now faults id)

theorem specialised_operations_statuses_witness :
    StatusMoves StatusSubmitted enrolledDB (SubmitCoursework enrolledDB 9 noFault 1).2 ∧
    ∃ (g : StudentCoursework → StudentCoursework) (created : List StudentCoursework),
      (step enrolledDB { now := 9, faults := noFault, op := .assign 8 2 }).studentCourseworks =
        enrolledDB.studentCourseworks.map g ++ created ∧
      (∀ r, (g r).Status = StatusInProgress ∨ (g r).Status = StatusFailed →
        (g r).Status = r.Status) ∧
      (∀ x ∈ created, x.Status = StatusAssigned) :=
  have h := specialised_operations_statuses enrolledDB 9 noFault
  ⟨h.2.1 1, h.2.2.2.2 (.assign 8 2) (fun _ _ hh => by cases hh)⟩

/-! ## Lemmas on the live pairs -/

theorem filter_map_of_preserves {α β : Type} (p : α → Bool) (f : α → β) (g : α → α)
    (hp : ∀ x, p (g x) = p x) (hf : ∀ x, f (g x) = f x) (l : List α) :
    ((l.map g).filter p).map f = (l.filter p).map f := by
  induction l with
  | nil => rfl
  | cons a t ih =>
    simp only [List.map_cons, List.filter_cons, hp a]
    cases p a with
    | true => simp only [if_true, List.map_cons, hf a, ih]
    | false => simpa using ih

theorem update_livePairs (db : DB) (id : Nat) (assign : StudentCoursework → StudentCoursework)
    (ha : ∀ r, (assign r).StudentID = r.StudentID ∧ (assign r).CourseworkID = r.CourseworkID ∧
      (assign r).DeletedAt = r.DeletedAt) :
    livePairs (updateStudentCourseworkByID db id assign).1 = livePairs db := by
  unfold livePairs updateStudentCourseworkByID
  apply filter_map_of_preserves
  · intro x
    by_cases hx : (StudentCourseworkLive x && x.ID == id) = true
    · dsimp only
      rw [if_pos hx]
      unfold StudentCourseworkLive
      rw [(ha x).2.2]
    · simp only [hx, if_false]
      rfl
  · intro x
    by_cases hx : (StudentCourseworkLive x && x.ID == id) = true
    · simp only [hx, if_true, (ha x).1, (ha x).2.1]
    · simp only [hx, if_false]
      rfl

theorem enrollmentCount_eq_livePairs (db : DB) (x : Nat) :
    enrollmentCount db x = (livePairs db).countP (fun p => p.2 == x) := by
  unfold enrollmentCount livePairs
  rw [List.countP_map, List.countP_filter]
  congr 1
  funext r
  simp [Bool.and_comm]

theorem update_of_affected_zero (db : DB) (id : Nat)
    (assign : StudentCoursework → StudentCoursework)
    (h : (updateStudentCourseworkByID db id assign).2 = 0) :
    (updateStudentCourseworkByID db id assign).1 = db := by
  have hmiss : AssignmentMissing db id := by
    unfold updateStudentCourseworkByID at h
    rw [List.countP_eq_zero] at h
    intro r hr hl hid
    exact h r hr (by simp [hl, hid])
  rw [update_no_match db id assign hmiss]

/-- With unique keys, the update by the key of a live row rewrites that row
and no other. -/
theorem update_unique (db : DB) (assign : StudentCoursework → StudentCoursework)
    (r0 : StudentCoursework) (hk : (db.studentCourseworks.map (fun r => r.ID)).Nodup)
    (hm : r0 ∈ db.studentCourseworks) (hl : StudentCourseworkLive r0 = true) :
    ∃ l1 l2, db.studentCourseworks = l1 ++ r0 :: l2 ∧
      (updateStudentCourseworkByID db r0.ID assign).1.studentCourseworks =
        l1 ++ assign r0 :: l2 := by
  obtain ⟨l1, l2, hsplit⟩ := List.append_of_mem hm
  refine ⟨l1, l2, hsplit, ?_⟩
  rw [hsplit] at hk
  simp only [List.map_append, List.map_cons, List.nodup_append, List.nodup_cons, List.mem_map,
    not_exists, not_and, List.disjoint_cons_right] at hk
  obtain ⟨_, ⟨h2, _⟩, h1, _⟩ := hk
  have e1 : l1.map (fun r => if (StudentCourseworkLive r && r.ID == r0.ID) = true
      then assign r else r) = l1 := by
    conv_rhs => rw [← List.map_id l1]
    apply List.map_congr_left
    intro x hx
    have : x.ID ≠ r0.ID := fun hxe => h1 x hx hxe
    simp [this]
  have e2 : l2.map (fun r => if (StudentCourseworkLive r && r.ID == r0.ID) = true
      then assign r else r) = l2 := by
    conv_rhs => rw [← List.map_id l2]
    apply List.map_congr_left
    intro x hx
    have : x.ID ≠ r0.ID := fun hxe => h2 x hx hxe
    simp [this]
  unfold updateStudentCourseworkByID
  dsimp only
  rw [hsplit, List.map_append, List.map_cons, e1, e2]
  simp [hl]

namespace studentCourseworkRepository

theorem UpdateStatus_livePairs (db : DB) (fault : Option String) (now : Time) (id : Nat)
    (status : CourseworkStatus) :
    livePairs (UpdateStatus db fault now id status).2 = livePairs db := by
  unfold UpdateStatus
  split
  · rfl
  · split
    · rfl
    · split
      · rfl
      · have := update_livePairs db id (fun r => { r with Status := status, UpdatedAt := now })
          (fun _ => ⟨rfl, rfl, rfl⟩)
        dsimp only
        split <;> exact this

theorem SetGrade_livePairs (db : DB) (fault : Option String) (now : Time) (id : Nat)
    (grade : Int) (feedback : String) :
    livePairs (SetGrade db fault now id grade feedback).2 = livePairs db := by
  unfold SetGrade
  split
  · rfl
  · split
    · rfl
    · split
      · rfl
      · have := update_livePairs db id
          (fun r => { r with Grade := some grade, Feedback := feedback, UpdatedAt := now })
          (fun _ => ⟨rfl, rfl, rfl⟩)
        dsimp only
        split <;> exact this

theorem SetSubmitted_livePairs (db : DB) (fault : Option String) (now : Time) (id : Nat)
    (submittedAt : Time) :
    livePairs (SetSubmitted db fault now id submittedAt).2 = livePairs db := by
  unfold SetSubmitted
  split
  · rfl
  · split
    · rfl
    · have := update_livePairs db id
        (fun r => { r with Status := StatusSubmitted, SubmittedAt := some submittedAt,
                           UpdatedAt := now }) (fun _ => ⟨rfl, rfl, rfl⟩)
      dsimp only
      split <;> exact this

theorem SetCompleted_livePairs (db : DB) (fault : Option String) (now : Time) (id : Nat)
    (completedAt : Time) :
    livePairs (SetCompleted db fault now id completedAt).2 = livePairs db := by
  unfold SetCompleted
  split
  · rfl
  · split
    · rfl
    · have := update_livePairs db id
        (fun r => { r with Status := StatusCompleted, CompletedAt := some completedAt,
                           UpdatedAt := now }) (fun _ => ⟨rfl, rfl, rfl⟩)
      dsimp only
      split <;> exact this

/-- A `Delete` that returns an error leaves the database as it was; one that
succeeds is the soft delete of the live rows under the key. -/
theorem Delete_cases (db : DB) (fault : Option String) (now : Time) (id : Nat) :
    (∃ e, Delete db fault now id = (.error e, db)) ∨
    Delete db fault now id =
      (.ok (), (updateStudentCourseworkByID db id
        (fun r => { r with DeletedAt := some now })).1) := by
  unfold Delete
  split
  · exact Or.inl ⟨_, rfl⟩
  · split
    · exact Or.inl ⟨_, rfl⟩
    · dsimp only
      split
      · rename_i hz
        left
        rw [update_of_affected_zero db id _ hz]
        exact ⟨_, rfl⟩
      · exact Or.inr rfl

end studentCourseworkRepository

namespace StudentCourseworkManagerImpl

open studentCourseworkRepository

theorem SubmitCoursework_livePairs (db : DB) (now : Time) (faults : Nat → Option String)
    (id : Nat) : livePairs (SubmitCoursework db now faults id).2 = livePairs db := by
  unfold SubmitCoursework
  have h1 := UpdateStatus_livePairs db (faults 0) now id StatusSubmitted
  split
  · rename_i heq; rw [heq] at h1; exact h1
  · rename_i heq; rw [heq] at h1
    exact (SetSubmitted_livePairs _ _ _ _ _).trans h1

theorem GradeCoursework_livePairs (db : DB) (now : Time) (faults : Nat → Option String)
    (id : Nat) (grade : Int) (feedback : String) :
    livePairs (GradeCoursework db now faults id grade feedback).2 = livePairs db := by
  unfold GradeCoursework
  have h1 := UpdateStatus_livePairs db (faults 0) now id StatusReviewed
  split
  · rename_i heq; rw [heq] at h1; exact h1
  · rename_i heq; rw [heq] at h1
    exact (SetGrade_livePairs _ _ _ _ _ _).trans h1

theorem CompleteCoursework_livePairs (db : DB) (now : Time) (faults : Nat → Option String)
    (id : Nat) : livePairs (CompleteCoursework db now faults id).2 = livePairs db := by
  unfold CompleteCoursework
  have h1 := UpdateStatus_livePairs db (faults 0) now id StatusCompleted
  split
  · rename_i heq; rw [heq] at h1; exact h1
  · rename_i heq; rw [heq] at h1
    exact (SetCompleted_livePairs _ _ _ _ _).trans h1

/-- An unassignment that returns an error leaves the database as it was; one
that succeeds is the soft delete, by key, of a live row of the table. -/
theorem UnassignStudentFromCoursework_cases (db : DB) (now : Time)
    (faults : Nat → Option String) (sid : Nat) :
    (∃ e, UnassignStudentFromCoursework db now faults sid = (.error e, db)) ∨
    ∃ r0, r0 ∈ db.studentCourseworks ∧ StudentCourseworkLive r0 = true ∧
      UnassignStudentFromCoursework db now faults sid =
        (.ok (), (updateStudentCourseworkByID db r0.ID
          (fun r => { r with DeletedAt := some now })).1) := by
  unfold UnassignStudentFromCoursework
  cases hlook : studentCourseworkRepository.GetByStudent db (faults 0) sid with
  | error e => exact Or.inl ⟨_, rfl⟩
  | ok r0 =>
    obtain ⟨hm, hl, _, _⟩ := GetByStudent_ok_live db (faults 0) sid r0 hlook
    dsimp only
    rcases Delete_cases db (faults 1) now r0.ID with ⟨e, he⟩ | hok
    · exact Or.inl ⟨e, he⟩
    · exact Or.inr ⟨r0, hm, hl, hok⟩

end StudentCourseworkManagerImpl

/-! ## Release of a slot -/

/-- C23 (unassign is the sole release mechanism): whatever their arguments and
the outcomes of their statements, `UpdateCourseworkStatus`, `SubmitCoursework`,
`GradeCoursework`, `CompleteCoursework` and `GetCourseworkProgress` leave the
(student, coursework) pairs of the live rows as they were.  Hence a call after
which the enrollment count of some coursework is lower than before is an
`UnassignStudentFromCoursework` that succeeded; and, the assignment keys being
non-zero and unique, a successful `UnassignStudentFromCoursework` lowers the
count of exactly one coursework, by exactly one. -/
theorem unassign_sole_release (db : DB) (now : Time) (faults : Nat → Option String) :
    (∀ id s, livePairs (UpdateCourseworkStatus db now faults id s).2 = livePairs db) ∧
    (∀ id, livePairs (SubmitCoursework db now faults id).2 = livePairs db) ∧
    (∀ id g f, livePairs (GradeCoursework db now faults id g f).2 = livePairs db) ∧
    (∀ id, livePairs (CompleteCoursework db now faults id).2 = livePairs db) ∧
    (∀ cid, livePairs (GetCourseworkProgress db faults cid).2 = livePairs db) ∧
    (∀ op x, enrollmentCount (step db { now := now, faults := faults, op := op }) x <
        enrollmentCount db x →
      ∃ sid, op = Op.unassign sid ∧
        (UnassignStudentFromCoursework db now faults sid).1 = .ok ()) ∧
    (∀ sid, AssignmentKeysValid db →
      (UnassignStudentFromCoursework db now faults sid).1 = .ok () →
      ∃ cid, enrollmentCount (UnassignStudentFromCoursework db now faults sid).2 cid + 1 =
          enrollmentCount db cid ∧
        ∀ x, x ≠ cid →
          enrollmentCount (UnassignStudentFromCoursework db now faults sid).2 x =
            enrollmentCount db x) := by
  refine ⟨fun id s => studentCourseworkRepository.UpdateStatus_livePairs db _ now id s,
    SubmitCoursework_livePairs db now faults, GradeCoursework_livePairs db now faults,
    CompleteCoursework_livePairs db now faults, ?_, ?_, ?_⟩
  · intro cid
    unfold GetCourseworkProgress
    split <;> rfl
  · intro op x hlt
    cases op with
    | assign sid cid =>
      exfalso
      have hstep : step db { now := now, faults := faults, op := .assign sid cid } =
          (AssignStudentToCoursework db now faults sid cid).2 := rfl
      rw [hstep] at hlt
      rcases AssignStudentToCoursework_appends db now faults sid cid with h | ⟨row, h, _⟩
      · rw [h] at hlt
        exact Nat.lt_irrefl _ hlt
      · have : enrollmentCount db x ≤
            enrollmentCount (AssignStudentToCoursework db now faults sid cid).2 x := by
          unfold enrollmentCount
          rw [h, List.countP_append]
          exact Nat.le_add_right _ _
        omega
    | unassign sid =>
      refine ⟨sid, rfl, ?_⟩
      have hstep : step db { now := now, faults := faults, op := .unassign sid } =
          (UnassignStudentFromCoursework db now faults sid).2 := rfl
      rw [hstep] at hlt
      rcases UnassignStudentFromCoursework_cases db now faults sid with ⟨e, he⟩ | ⟨_, _, _, hok⟩
      · rw [he] at hlt
        exact absurd hlt (Nat.lt_irrefl _)
      · rw [hok]
    | updateStatus id s =>
      exfalso
      have hstep : step db { now := now, faults := faults, op := .updateStatus id s } =
          (UpdateCourseworkStatus db now faults id s).2 := rfl
      rw [hstep, enrollmentCount_eq_livePairs, enrollmentCount_eq_livePairs db] at hlt
      have := studentCourseworkRepository.UpdateStatus_livePairs db (faults 0) now id s
      unfold UpdateCourseworkStatus at hlt
      rw [this] at hlt
      exact Nat.lt_irrefl _ hlt
    | submit id =>
      exfalso
      have hstep : step db { now := now, faults := faults, op := .submit id } =
          (SubmitCoursework db now faults id).2 := rfl
      rw [hstep, enrollmentCount_eq_livePairs, enrollmentCount_eq_livePairs db,
        SubmitCoursework_livePairs] at hlt
      exact Nat.lt_irrefl _ hlt
    | grade id g f =>
      exfalso
      have hstep : step db { now := now, faults := faults, op := .grade id g f } =
          (GradeCoursework db now faults id g f).2 := rfl
      rw [hstep, enrollmentCount_eq_livePairs, enrollmentCount_eq_livePairs db,
        GradeCoursework_livePairs] at hlt
      exact Nat.lt_irrefl _ hlt
    | complete id =>
      exfalso
      have hstep : step db { now := now, faults := faults, op := .complete id } =
          (CompleteCoursework db now faults id).2 := rfl
      rw [hstep, enrollmentCount_eq_livePairs, enrollmentCount_eq_livePairs db,
        CompleteCoursework_livePairs] at hlt
      exact Nat.lt_irrefl _ hlt
  · intro sid hk hok
    rcases UnassignStudentFromCoursework_cases db now faults sid with ⟨e, he⟩ | ⟨r0, hm, hl, hun⟩
    · rw [he] at hok
      cases hok
    · obtain ⟨l1, l2, hsplit, hupd⟩ := update_unique db
        (fun r => { r with DeletedAt := some now }) r0 hk.2 hm hl
      refine ⟨r0.CourseworkID, ?_, ?_⟩
      · rw [hun]
        unfold enrollmentCount
        rw [hupd, hsplit]
        simp only [List.countP_append, List.countP_cons]
        have h1 : (StudentCourseworkLive r0 && r0.CourseworkID == r0.CourseworkID) = true := by
          simp [hl]
        have h2 : (StudentCourseworkLive { r0 with DeletedAt := some now } &&
            r0.CourseworkID == r0.CourseworkID) = false := by
          simp [StudentCourseworkLive]
        simp only [h1, h2, if_true]
        simp
        omega
      · intro x hx
        rw [hun]
        unfold enrollmentCount
        rw [hupd, hsplit]
        simp only [List.countP_append, List.countP_cons]
        have h1 : (StudentCourseworkLive r0 && r0.CourseworkID == x) = false := by
          simp [Ne.symm hx]
        have h2 : (StudentCourseworkLive { r0 with DeletedAt := some now } &&
            r0.CourseworkID == x) = false := by
          simp [StudentCourseworkLive]
        simp only [h1, h2]

theorem unassign_sole_release_witness :
    livePairs (GradeCoursework enrolledDB 9 noFault 1 4 "good").2 = livePairs enrolledDB ∧
    (∃ sid, Op.unassign 7 = Op.unassign sid ∧
      (UnassignStudentFromCoursework enrolledDB 9 noFault sid).1 = .ok ()) ∧
    (∃ cid, enrollmentCount (UnassignStudentFromCoursework enrolledDB 9 noFault 7).2 cid + 1 =
        enrollmentCount enrolledDB cid ∧
      ∀ x, x ≠ cid →
        enrollmentCount (UnassignStudentFromCoursework enrolledDB 9 noFault 7).2 x =
          enrollmentCount enrolledDB x) :=
  have h := unassign_sole_release enrolledDB 9 noFault
  ⟨h.2.2.1 1 4 "good", h.2.2.2.2.2.1 (.unassign 7) 1 (by decide),
   h.2.2.2.2.2.2 7 (by decide) (by decide)⟩

end CourseForge
